import Mathlib

/-!
# Verification of the Anura controller-input subsystem (src/joystick.cpp, src/joystick.hpp)

Shallow embedding of the joystick module of the Anura engine: the controller
signal abstraction (axis/button/hat/union signals), the interactive controller
configurer state machine (signal capture, clash detection, retreat), the
player controller binding table and the singular interface wrappers, together
with theorems settling the frozen claims about them.

Machine integers: C `int` values are modelled as `Int` (all the arithmetic in
the source stays far away from 32-bit overflow: axis values are in
[-32768, 32767] and the sentinels extend that by one).  Fallible paths
(`ASSERT_FATAL`, returning NULL) are modelled with `Option`/`Except`.
-/

namespace joystick

/-! ## Constants

`axval` mirrors the `namespace axval` constants of joystick.cpp.
The `SDL_HAT_*` and `SDL_CONTROLLER_*` values are the SDL2 enum values the
source reads through the SDL headers. -/

namespace axval

def lowest : Int := -32768
def low_sentinel : Int := lowest - 1
def zero : Int := 0
def dead_pad : Int := 4096
def dead_pad_ex : Int := dead_pad + 1
def highest : Int := 32767
def high_sentinel : Int := highest + 1

end axval

def SDL_HAT_CENTERED : Int := 0
def SDL_HAT_UP : Int := 1
def SDL_HAT_RIGHT : Int := 2
def SDL_HAT_RIGHTUP : Int := 3
def SDL_HAT_DOWN : Int := 4
def SDL_HAT_RIGHTDOWN : Int := 6
def SDL_HAT_LEFT : Int := 8
def SDL_HAT_LEFTUP : Int := 9
def SDL_HAT_LEFTDOWN : Int := 12

/-- The eight non-centered compass positions an SDL hat can report. -/
def hat_positions : List Int :=
  [SDL_HAT_UP, SDL_HAT_RIGHTUP, SDL_HAT_RIGHT, SDL_HAT_RIGHTDOWN,
   SDL_HAT_DOWN, SDL_HAT_LEFTDOWN, SDL_HAT_LEFT, SDL_HAT_LEFTUP]

/-- `enum part_kind { AXIS, BUTTON, HAT }` cast to int, as stored in the
`part_kinds` arrays and in preferences. -/
def AXIS : Int := 0
def BUTTON : Int := 1
def HAT : Int := 2

/-- Modelled from the spec: `controls::NUM_CONTROLS` lives in controls.hpp,
which is not among the provided sources.  The spec fixes exactly 7 logical
controls (up, down, left, right, attack, jump, tongue), and joystick.cpp's
own default maps push exactly 7 signals, so `NUM_CONTROLS = 7`. -/
def NUM_CONTROLS : Nat := 7

/-- `enum listen_result` from joystick.hpp. -/
inductive listen_result where
  | still_listening
  | duplicate
  | success_keep_going
  | success_finished
deriving DecidableEq, Repr

/-! ## Hat adjacency: `hat_signal::middle_to_front` / `middle_to_back`

Both functions are switches over the 8 compass positions; the `default`
case is `ASSERT_FATAL`, modelled as `none`. -/

def middle_to_front (middle : Int) : Option Int :=
  if middle = SDL_HAT_RIGHT then some SDL_HAT_RIGHTDOWN
  else if middle = SDL_HAT_RIGHTDOWN then some SDL_HAT_DOWN
  else if middle = SDL_HAT_DOWN then some SDL_HAT_LEFTDOWN
  else if middle = SDL_HAT_LEFTDOWN then some SDL_HAT_LEFT
  else if middle = SDL_HAT_LEFT then some SDL_HAT_LEFTUP
  else if middle = SDL_HAT_LEFTUP then some SDL_HAT_UP
  else if middle = SDL_HAT_UP then some SDL_HAT_RIGHTUP
  else if middle = SDL_HAT_RIGHTUP then some SDL_HAT_RIGHT
  else none

def middle_to_back (middle : Int) : Option Int :=
  if middle = SDL_HAT_RIGHT then some SDL_HAT_RIGHTUP
  else if middle = SDL_HAT_RIGHTUP then some SDL_HAT_UP
  else if middle = SDL_HAT_UP then some SDL_HAT_LEFTUP
  else if middle = SDL_HAT_LEFTUP then some SDL_HAT_LEFT
  else if middle = SDL_HAT_LEFT then some SDL_HAT_LEFTDOWN
  else if middle = SDL_HAT_LEFTDOWN then some SDL_HAT_DOWN
  else if middle = SDL_HAT_DOWN then some SDL_HAT_RIGHTDOWN
  else if middle = SDL_HAT_RIGHTDOWN then some SDL_HAT_RIGHT
  else none

/-- Totalised `middle_to_front` (junk value 0 on the fatal branch), used only
to phrase iteration of the clockwise-front step. -/
def front_step (middle : Int) : Int := (middle_to_front middle).getD 0

/-! ## Device model

`Device` is the static part of the `sdl_controller` interface (counts,
identity, setup hints); `DevState` is one tick's worth of readings
(`read_axis` / `read_button` / `read_hat`). -/

structure Device where
  id : Int
  guid : String
  name : String
  attached : Bool
  num_axes : Nat
  num_buttons : Nat
  num_hats : Nat
  prefer_axial : Bool
  prefer_hatty : Bool
  prefer_sdl_gc : Bool
  know_neutral_points : Bool
deriving DecidableEq, Repr

structure DevState where
  axis : Int → Int
  button : Int → Bool
  hat : Int → Int

/-! ## Controller signals

`controller_signal` and its subclasses, as a tagged variant.  A
`hat_signal` stores the `front`, `middle` and `back` values computed in its
constructor.  Signals in the C++ code keep a shared_ptr to the device they
read; all the signals of one map share the one bound device, so the model
reads all signals against the single `DevState` passed to `is_firing`. -/

inductive Signal where
  | axis (id low high : Int)
  | button (id : Int)
  | hat (id front middle back : Int)
  | union (primary secondary : Signal)
deriving DecidableEq, Repr

/-- `is_firing()` for each signal kind. -/
def is_firing (ds : DevState) : Signal → Bool
  | .axis id low high =>
      let axisPos := ds.axis id
      decide (low ≤ axisPos) && decide (axisPos ≤ high)
  | .button id => ds.button id
  | .hat id front middle back =>
      let hat_pos := ds.hat id
      decide (hat_pos = front) || decide (hat_pos = middle) || decide (hat_pos = back)
  | .union primary secondary =>
      is_firing ds primary || is_firing ds secondary

/-- `realise()`: identity on real signals; a union realises its primary
(left-most leaf). -/
def realise : Signal → Signal
  | .union primary _ => realise primary
  | .axis id low high => .axis id low high
  | .button id => .button id
  | .hat id f m b => .hat id f m b

/-- True for the real (non-union) signals, i.e. the
`real_controller_signal` subclasses. -/
def is_real : Signal → Bool
  | .union _ _ => false
  | _ => true

/-- `get_kind()` (through `realise()` for a union). -/
def get_kind : Signal → Int
  | .axis _ _ _ => AXIS
  | .button _ => BUTTON
  | .hat _ _ _ _ => HAT
  | .union primary _ => get_kind primary

/-- `get_id()` (through `realise()` for a union). -/
def get_id : Signal → Int
  | .axis id _ _ => id
  | .button id => id
  | .hat id _ _ _ => id
  | .union primary _ => get_id primary

/-- `get_data0()`: an axis stores `low`, a hat its `middle` position, a
button the base-class 0. -/
def get_data0 : Signal → Int
  | .axis _ low _ => low
  | .button _ => 0
  | .hat _ _ middle _ => middle
  | .union primary _ => get_data0 primary

/-- `get_data1()`: an axis stores `high`; button and hat inherit the
base-class 0. -/
def get_data1 : Signal → Int
  | .axis _ _ high => high
  | .button _ => 0
  | .hat _ _ _ _ => 0
  | .union primary _ => get_data1 primary

/-- The `hat_signal` constructor: a centered target is coerced to
`SDL_HAT_LEFT` with a warning; `middle_to_front` / `middle_to_back` are
`ASSERT_FATAL` on any other invalid position (`none` here). -/
def hat_make (id middle_in : Int) : Option Signal :=
  let middle := if middle_in = SDL_HAT_CENTERED then SDL_HAT_LEFT else middle_in
  match middle_to_front middle, middle_to_back middle with
  | some f, some b => some (.hat id f middle b)
  | _, _ => none

/-- `real_controller_signal::make`: dispatch on the part kind; an
out-of-range kind warns and returns NULL (`none`).  The device argument of
the C++ function is the shared device every signal reads; it plays no role
in the construction of the value. -/
def real_make (kind id data0 data1 : Int) : Option Signal :=
  if kind = AXIS then some (.axis id data0 data1)
  else if kind = BUTTON then some (.button id)
  else if kind = HAT then hat_make id data0
  else none

/-- `union_signal::make` on the results of `real_make` (a NULL child would
make the union unusable, so the model propagates `none`). -/
def union_make : Option Signal → Option Signal → Option Signal
  | some p, some s => some (.union p s)
  | _, _ => none

/-! ## The interactive configurer

`interactive_controller_configurer` from joystick.cpp.  The four
`part_*[NUM_CONTROLS]` C arrays are modelled as total functions `Int → Int`
(entries outside the written range are the arrays' uninitialised junk); the
neutral-zone vectors, sized `num_axes`, as functions `Nat → Int`. -/

structure Configurer where
  device : Device
  curr_control : Int
  part_kinds : Int → Int
  part_ids : Int → Int
  part_data0 : Int → Int
  part_data1 : Int → Int
  neutral_min : Nat → Int
  neutral_max : Nat → Int

/-- One captured (kind, id, data0, data1) quadruple, i.e. the slice of the
four `part_*` arrays at one control index. -/
structure Capture where
  kind : Int
  id : Int
  data0 : Int
  data1 : Int
deriving DecidableEq, Repr

/-- The quadruple stored at control index `i` of the configurer's arrays. -/
def parts_at (c : Configurer) (i : Int) : Capture :=
  ⟨c.part_kinds i, c.part_ids i, c.part_data0 i, c.part_data1 i⟩

/-- `inside(a, b, c)` returns true iff `a <= b <= c`. -/
def inside (a b c : Int) : Bool :=
  if b > c ∨ b < a then false else true

/-- `clash` on the quadruples held at two control positions.  Buttons clash
on equal ids; hats additionally need the same position (data0); axes clash
when either endpoint of one range falls inside the other range. -/
def clash (x y : Capture) : Bool :=
  decide (x.kind = y.kind) && decide (x.id = y.id) &&
    ( decide (x.kind = BUTTON)
      || (decide (x.kind = HAT) && decide (x.data0 = y.data0))
      || (decide (x.kind = AXIS) &&
            ( inside x.data0 y.data0 x.data1
              || inside x.data0 y.data1 x.data1
              || inside y.data0 x.data0 y.data1
              || inside y.data0 x.data1 y.data1)))

/-- `current_control_clashes()`: OR of `clash(c, curr_control)` over all
previously captured controls `c < curr_control`. -/
def current_control_clashes (c : Configurer) : Bool :=
  (List.range c.curr_control.toNat).any fun k =>
    clash (parts_at c ↑k) (parts_at c c.curr_control)

/-- `check_signal(got_signal)`, called after the scan has (possibly)
written a capture into the arrays at `curr_control`. -/
def check_signal (c : Configurer) (got_signal : Bool) : Configurer × listen_result :=
  if !got_signal then (c, .still_listening)
  else if current_control_clashes c then (c, .duplicate)
  else
    let c1 : Configurer := { c with curr_control := c.curr_control + 1 }
    if c1.curr_control ≥ (NUM_CONTROLS : Int) then
      ({ c1 with curr_control := c1.curr_control - 1 }, .success_finished)
    else
      (c1, .success_keep_going)

/-- Writing the tentative capture into the four arrays at `curr_control`,
as the scan branches of `listen_for_signal` do before calling
`check_signal(true)`. -/
def record_part (c : Configurer) (cap : Capture) : Configurer :=
  { c with
    part_kinds := fun j => if j = c.curr_control then cap.kind else c.part_kinds j
    part_ids := fun j => if j = c.curr_control then cap.id else c.part_ids j
    part_data0 := fun j => if j = c.curr_control then cap.data0 else c.part_data0 j
    part_data1 := fun j => if j = c.curr_control then cap.data1 else c.part_data1 j }

/-- The axis loop of `listen_for_signal`: first axis index whose reading is
at or beyond the dead-padded neutral zone, with the captured range. -/
def scan_axes (ds : DevState) (nmin nmax : Nat → Int) : List Nat → Option Capture
  | [] => none
  | idx :: rest =>
      let high_active_start := nmax idx + axval.dead_pad_ex
      let low_active_start := nmin idx - axval.dead_pad_ex
      let val := ds.axis ↑idx
      if val ≤ low_active_start then some ⟨AXIS, ↑idx, axval.lowest, low_active_start⟩
      else if val ≥ high_active_start then some ⟨AXIS, ↑idx, high_active_start, axval.highest⟩
      else scan_axes ds nmin nmax rest

/-- The button loop: first pressed button index. -/
def scan_buttons (ds : DevState) : List Nat → Option Capture
  | [] => none
  | idx :: rest =>
      if ds.button ↑idx then some ⟨BUTTON, ↑idx, 0, 0⟩
      else scan_buttons ds rest

/-- The hat loop: first hat index reporting a non-centered position. -/
def scan_hats (ds : DevState) : List Nat → Option Capture
  | [] => none
  | idx :: rest =>
      let val := ds.hat ↑idx
      if val ≠ SDL_HAT_CENTERED then some ⟨HAT, ↑idx, val, 0⟩
      else scan_hats ds rest

/-- The full scan of `listen_for_signal`: axes, then buttons, then hats.
It depends only on the device shape and the neutral-zone arrays, never on
the capture arrays or `curr_control`. -/
def scan_parts (dev : Device) (nmin nmax : Nat → Int) (ds : DevState) : Option Capture :=
  match scan_axes ds nmin nmax (List.range dev.num_axes) with
  | some cap => some cap
  | none =>
      match scan_buttons ds (List.range dev.num_buttons) with
      | some cap => some cap
      | none => scan_hats ds (List.range dev.num_hats)

/-- `listen_for_signal()` for one tick with readings `ds` (the `update()`
call at its head only pumps SDL and is external to the model): the first
active primitive, in axis/button/hat order, is written into the arrays at
`curr_control` and checked; with nothing active, `check_signal(false)`. -/
def Configurer.listen_for_signal (c : Configurer) (ds : DevState) : Configurer × listen_result :=
  match scan_parts c.device c.neutral_min c.neutral_max ds with
  | some cap => check_signal (record_part c cap) true
  | none => check_signal c false

/-- `retreat()`: step `curr_control` back, refusing (and restoring) at 0. -/
def Configurer.retreat (c : Configurer) : Configurer × Bool :=
  let c1 : Configurer := { c with curr_control := c.curr_control - 1 }
  if c1.curr_control < 0 then ({ c1 with curr_control := c1.curr_control + 1 }, false)
  else (c1, true)

/-- The `interactive_controller_configurer` constructor: `curr_control = 0`,
neutral vectors sized `num_axes` and zero-filled; the `part_*` arrays are
uninitialised, passed here as arbitrary junk contents. -/
def start_session (dev : Device) (jk ji j0 j1 : Int → Int) : Configurer :=
  { device := dev
    curr_control := 0
    part_kinds := jk, part_ids := ji, part_data0 := j0, part_data1 := j1
    neutral_min := fun _ => 0
    neutral_max := fun _ => 0 }

/-- `default_neutral_zones()`: zero out the ranges for every axis. -/
def Configurer.default_neutral_zones (c : Configurer) : Configurer :=
  { c with
    neutral_min := fun i => if i < c.device.num_axes then 0 else c.neutral_min i
    neutral_max := fun i => if i < c.device.num_axes then 0 else c.neutral_max i }

/-- `clear_neutral_zones()`: set every axis range to the empty sentinel
range [high_sentinel, low_sentinel]. -/
def Configurer.clear_neutral_zones (c : Configurer) : Configurer :=
  { c with
    neutral_min := fun i => if i < c.device.num_axes then axval.high_sentinel else c.neutral_min i
    neutral_max := fun i => if i < c.device.num_axes then axval.low_sentinel else c.neutral_max i }

/-- `neutral_zones_tick()`: widen each axis range by the current reading. -/
def Configurer.neutral_zones_tick (c : Configurer) (ds : DevState) : Configurer :=
  { c with
    neutral_min := fun i =>
      if i < c.device.num_axes then min (c.neutral_min i) (ds.axis ↑i) else c.neutral_min i
    neutral_max := fun i =>
      if i < c.device.num_axes then max (c.neutral_max i) (ds.axis ↑i) else c.neutral_max i }

/-- `neutral_zones_dangerous()`: some axis's neutral span reaches the
dead-pad width. -/
def Configurer.neutral_zones_dangerous (c : Configurer) : Bool :=
  (List.range c.device.num_axes).any fun i =>
    decide (c.neutral_max i - c.neutral_min i ≥ axval.dead_pad)

/-! ## The player controller (binding table)

`player_controller` from joystick.cpp: the bound device, the 7-slot signal
map (slots are shared_ptrs that `real_controller_signal::make` may leave
NULL, hence `Option Signal`) and the `default_config` flag. -/

structure PlayerController where
  device : Option Device
  signal_map : List (Option Signal)
  default_config : Bool
deriving DecidableEq, Repr

/-- The `player_controller` constructor: no device, cleared map. -/
def player_controller_init : PlayerController :=
  { device := none, signal_map := [], default_config := true }

/-- The slice of the preferences store the joystick module reads:
`configured_joystick_guid` and the per-control part quadruples (already
validated/defaulted by the preferences loader). -/
structure Prefs where
  configured_joystick_guid : String
  joy_part_kind : Nat → Int
  joy_part_id : Nat → Int
  joy_part_data0 : Nat → Int
  joy_part_data1 : Nat → Int

/-- `configure_from_preferences()`: with a device in use, rebuild all 7
slots from the stored quadruples and clear `default_config`. -/
def configure_from_preferences (prefs : Prefs) (pc : PlayerController) : PlayerController :=
  match pc.device with
  | none => pc
  | some _ =>
      { pc with
        signal_map := (List.range NUM_CONTROLS).map fun c =>
          real_make (prefs.joy_part_kind c) (prefs.joy_part_id c)
            (prefs.joy_part_data0 c) (prefs.joy_part_data1 c)
        default_config := false }

/-- SDL_GameController button/axis ids used by the sdl_gc default map. -/
def SDL_CONTROLLER_BUTTON_A : Int := 0
def SDL_CONTROLLER_BUTTON_B : Int := 1
def SDL_CONTROLLER_BUTTON_Y : Int := 3
def SDL_CONTROLLER_BUTTON_DPAD_UP : Int := 11
def SDL_CONTROLLER_BUTTON_DPAD_DOWN : Int := 12
def SDL_CONTROLLER_BUTTON_DPAD_LEFT : Int := 13
def SDL_CONTROLLER_BUTTON_DPAD_RIGHT : Int := 14
def SDL_CONTROLLER_AXIS_LEFTX : Int := 0
def SDL_CONTROLLER_AXIS_LEFTY : Int := 1
def SDL_CONTROLLER_AXIS_RIGHTX : Int := 2
def SDL_CONTROLLER_AXIS_RIGHTY : Int := 3

/-- `configure_blind()`: heuristic default map for the device in use,
choosing the sdl_gc, hatty or axial style. -/
def configure_blind (pc : PlayerController) : PlayerController :=
  match pc.device with
  | none => pc
  | some d =>
      if d.prefer_sdl_gc then
        { pc with
          default_config := true,
          signal_map :=
            [ union_make (real_make BUTTON SDL_CONTROLLER_BUTTON_DPAD_UP 0 0)
                (union_make
                  (real_make AXIS SDL_CONTROLLER_AXIS_LEFTY axval.lowest (-axval.dead_pad_ex))
                  (real_make AXIS SDL_CONTROLLER_AXIS_RIGHTY axval.lowest (-axval.dead_pad_ex)))
            , union_make (real_make BUTTON SDL_CONTROLLER_BUTTON_DPAD_DOWN 0 0)
                (union_make
                  (real_make AXIS SDL_CONTROLLER_AXIS_LEFTY axval.dead_pad_ex axval.highest)
                  (real_make AXIS SDL_CONTROLLER_AXIS_RIGHTY axval.dead_pad_ex axval.highest))
            , union_make (real_make BUTTON SDL_CONTROLLER_BUTTON_DPAD_LEFT 0 0)
                (union_make
                  (real_make AXIS SDL_CONTROLLER_AXIS_LEFTX axval.lowest (-axval.dead_pad_ex))
                  (real_make AXIS SDL_CONTROLLER_AXIS_RIGHTX axval.lowest (-axval.dead_pad_ex)))
            , union_make (real_make BUTTON SDL_CONTROLLER_BUTTON_DPAD_RIGHT 0 0)
                (union_make
                  (real_make AXIS SDL_CONTROLLER_AXIS_LEFTX axval.dead_pad_ex axval.highest)
                  (real_make AXIS SDL_CONTROLLER_AXIS_RIGHTX axval.dead_pad_ex axval.highest))
            , real_make BUTTON SDL_CONTROLLER_BUTTON_A 0 0
            , real_make BUTTON SDL_CONTROLLER_BUTTON_B 0 0
            , real_make BUTTON SDL_CONTROLLER_BUTTON_Y 0 0 ] }
      else if d.prefer_hatty then
        { pc with
          default_config := true,
          signal_map :=
            [ real_make HAT 0 SDL_HAT_UP 0
            , real_make HAT 0 SDL_HAT_DOWN 0
            , real_make HAT 0 SDL_HAT_LEFT 0
            , real_make HAT 0 SDL_HAT_RIGHT 0
            , real_make BUTTON 0 0 0
            , real_make BUTTON 1 0 0
            , real_make BUTTON 2 0 0 ] }
      else
        { pc with
          default_config := true,
          signal_map :=
            [ real_make AXIS 1 axval.lowest (-axval.dead_pad_ex)
            , real_make AXIS 1 axval.dead_pad_ex axval.highest
            , real_make AXIS 0 axval.lowest (-axval.dead_pad_ex)
            , real_make AXIS 0 axval.dead_pad_ex axval.highest
            , real_make BUTTON 0 0 0
            , real_make BUTTON 1 0 0
            , real_make BUTTON 2 0 0 ] }

/-- `change_device(new_device)`: install the new device; with a real device,
rebuild the map from preferences (on a GUID match) or blindly.  Note the
NULL branch: it only logs — the old `signal_map` is left in place. -/
def change_device (prefs : Prefs) (pc : PlayerController) (new_device : Option Device) :
    PlayerController :=
  let pc1 : PlayerController := { pc with device := new_device }
  match new_device with
  | some d =>
      if d.guid = prefs.configured_joystick_guid then configure_from_preferences prefs pc1
      else configure_blind pc1
  | none => pc1

/-- `change_mapping(kinds, ids, data0, data1)`: with a device in use,
atomically rebuild all 7 slots from the given arrays and clear
`default_config`; with none, do nothing.  Never writes preferences. -/
def change_mapping (pc : PlayerController) (kinds ids data0 data1 : Int → Int) :
    PlayerController :=
  match pc.device with
  | none => pc
  | some _ =>
      { pc with
        default_config := false,
        signal_map := (List.range NUM_CONTROLS).map fun c : Nat =>
          real_make (kinds ↑c) (ids ↑c) (data0 ↑c) (data1 ↑c) }

/-! ## The singular interface

The file-scope `local_joystick` / `local_configurer` pointers and the
persisted preferences store (its type is a parameter `α` here: none of the
configuration-session entry points below ever touches it). -/

structure GlobalState (α : Type) where
  local_joystick : Option PlayerController
  local_configurer : Option Configurer
  prefs_store : α

/-- `joystick::start_configurer()`: only with a joystick and a bound device
does a fresh configurer appear (its uninitialised arrays modelled as
zeros). -/
def start_configurer (g : GlobalState α) : GlobalState α :=
  match g.local_joystick with
  | some pc =>
      match pc.device with
      | some d =>
          { g with
              local_configurer :=
                some (start_session d (fun _ => 0) (fun _ => 0) (fun _ => 0) (fun _ => 0)) }
      | none => g
  | none => g

/-- `joystick::neutral_zones_known()`: guarded only by `local_joystick`; it
then calls `know_neutral_points()` straight through `get_device()`.  With a
joystick but no bound device that is a NULL dereference, modelled as
`none`; `some b` is a normal return of `b`. -/
def neutral_zones_known (g : GlobalState α) : Option Bool :=
  match g.local_joystick with
  | some pc =>
      match pc.device with
      | some d => some d.know_neutral_points
      | none => none
  | none => some false

/-- `joystick::clear_neutral_zones()`. -/
def clear_neutral_zones (g : GlobalState α) : GlobalState α :=
  match g.local_joystick, g.local_configurer with
  | some _, some c => { g with local_configurer := some c.clear_neutral_zones }
  | _, _ => g

/-- `joystick::examine_neutral_zones_tick()`. -/
def examine_neutral_zones_tick (g : GlobalState α) (ds : DevState) : GlobalState α :=
  match g.local_joystick, g.local_configurer with
  | some _, some c => { g with local_configurer := some (c.neutral_zones_tick ds) }
  | _, _ => g

/-- `joystick::neutral_zones_dangerous()`. -/
def neutral_zones_dangerous (g : GlobalState α) : Bool :=
  match g.local_joystick, g.local_configurer with
  | some _, some c => c.neutral_zones_dangerous
  | _, _ => false

/-- `joystick::default_neutral_zones()`. -/
def default_neutral_zones (g : GlobalState α) : GlobalState α :=
  match g.local_joystick, g.local_configurer with
  | some _, some c => { g with local_configurer := some c.default_neutral_zones }
  | _, _ => g

/-- `joystick::listen_for_signal()` with this tick's readings. -/
def listen_for_signal (g : GlobalState α) (ds : DevState) : GlobalState α × listen_result :=
  match g.local_joystick, g.local_configurer with
  | some _, some c =>
      let r := c.listen_for_signal ds
      ({ g with local_configurer := some r.1 }, r.2)
  | _, _ => (g, .still_listening)

/-- `joystick::retreat()`. -/
def retreat (g : GlobalState α) : GlobalState α × Bool :=
  match g.local_joystick, g.local_configurer with
  | some _, some c =>
      let r := c.retreat
      ({ g with local_configurer := some r.1 }, r.2)
  | _, _ => (g, false)

/-- `joystick::apply_configuration()`: hand the configurer's four arrays to
`change_mapping` on the player controller. -/
def apply_configuration (g : GlobalState α) : GlobalState α :=
  match g.local_joystick, g.local_configurer with
  | some pc, some c =>
      { g with
          local_joystick :=
            some (change_mapping pc c.part_kinds c.part_ids c.part_data0 c.part_data1) }
  | _, _ => g

/-- `joystick::stop_configurer()`: delete the configurer, touching nothing
else. -/
def stop_configurer (g : GlobalState α) : GlobalState α :=
  { g with local_configurer := none }

/-! ## The device registry (`joystick_manager`)

`Platform` is SDL's current device list: `num_sticks` (`SDL_NumJoysticks`)
and `sdl_open` (`sdl_controller::open(device_position)`, NULL = `none`). -/

structure Platform where
  num_sticks : Nat
  sdl_open : Nat → Option Device

structure ManagerState where
  joysticks : List Device
  local_player_controller : PlayerController
deriving DecidableEq, Repr

/-- The second phase of `synch_devices()`: walk SDL's device list; every
position must open (`ASSERT_FATAL` otherwise — `Except.error`); a candidate
whose instance id is not yet tracked is appended and flags a change. -/
def synch_open_loop (p : Platform) (positions : List Nat) (js : List Device) (changed : Bool) :
    Except Unit (List Device × Bool) :=
  match positions with
  | [] => .ok (js, changed)
  | j :: rest =>
      match p.sdl_open j with
      | none => .error ()
      | some candidate =>
          if js.any fun con => con.id = candidate.id then
            synch_open_loop p rest js changed
          else
            synch_open_loop p rest (js ++ [candidate]) true

/-- `joystick_manager::synch_devices()`: prune detached sticks (clearing the
player controller's device if it was one of them), then reconcile against
SDL's device list.  Returns whether the tracked list changed, or
`Except.error` for the fatal assertion on a failed open. -/
def synch_devices (prefs : Prefs) (p : Platform) (m : ManagerState) :
    Except Unit (ManagerState × Bool) :=
  let pruned := m.joysticks.filter fun d => d.attached
  let changed1 := m.joysticks.any fun d => !d.attached
  let pc1 :=
    match m.local_player_controller.device with
    | some d =>
        if (m.joysticks.any fun j => !j.attached ∧ j = d) then
          change_device prefs m.local_player_controller none
        else m.local_player_controller
    | none => m.local_player_controller
  match synch_open_loop p (List.range p.num_sticks) pruned changed1 with
  | .error e => .error e
  | .ok (js, changed) =>
      .ok ({ joysticks := js, local_player_controller := pc1 }, changed)

/-- The joystick-opening loop of `joystick_manager::initial_setup()`: a
position that fails to open is logged and skipped, the loop continues. -/
def initial_setup_loop (p : Platform) : List Nat → List Device
  | [] => []
  | n :: rest =>
      match p.sdl_open n with
      | some j => j :: initial_setup_loop p rest
      | none => initial_setup_loop p rest

/-- The tracked list `initial_setup()` builds over all enumeration
positions. -/
def initial_setup_joysticks (p : Platform) : List Device :=
  initial_setup_loop p (List.range p.num_sticks)

/-! ## Operation alphabets for whole-session statements -/

/-- The operations that drive the capture loop on a configurer: one
`listen_for_signal` tick (with that tick's readings) or one `retreat`. -/
inductive ConfigOp where
  | listen (ds : DevState)
  | retreat

def apply_config_op (c : Configurer) : ConfigOp → Configurer
  | .listen ds => (c.listen_for_signal ds).1
  | .retreat => c.retreat.1

def run_config_ops (c : Configurer) : List ConfigOp → Configurer
  | [] => c
  | op :: rest => run_config_ops (apply_config_op c op) rest

/-- The configuration-session entry points of the singular interface, as
invokable operations on the global state. -/
inductive SessionOp where
  | start
  | clear_nz
  | default_nz
  | tick_nz (ds : DevState)
  | listen (ds : DevState)
  | step_back
  | apply_conf
  | stop

def SessionOp.is_apply : SessionOp → Bool
  | .apply_conf => true
  | _ => false

def session_step {α : Type} (g : GlobalState α) : SessionOp → GlobalState α
  | .start => start_configurer g
  | .clear_nz => clear_neutral_zones g
  | .default_nz => default_neutral_zones g
  | .tick_nz ds => examine_neutral_zones_tick g ds
  | .listen ds => (listen_for_signal g ds).1
  | .step_back => (retreat g).1
  | .apply_conf => apply_configuration g
  | .stop => stop_configurer g

def run_session {α : Type} (g : GlobalState α) : List SessionOp → GlobalState α
  | [] => g
  | op :: rest => run_session (session_step g op) rest

/-! # Theorems -/

/-! ## C9: union signal semantics -/

/-- `realise` always lands on a real (non-union) signal: the recursion
bottoms out at the left-most leaf. -/
theorem realise_is_real (s : Signal) : is_real (realise s) = true := by
  induction s with
  | union primary secondary ihp ihs => simpa [realise] using ihp
  | axis id low high => rfl
  | button id => rfl
  | hat id f m b => rfl

/-- C9: for all signals A, B and all device readings, the union of A and B
is firing exactly when A is firing or B is firing, and the union realises
to `realise A` (its left-most leaf, a real signal), independent of B. -/
theorem union_or_semantics (A B : Signal) (ds : DevState) :
    is_firing ds (.union A B) = (is_firing ds A || is_firing ds B)
      ∧ realise (.union A B) = realise A
      ∧ is_real (realise (.union A B)) = true := by
  refine ⟨rfl, rfl, ?_⟩
  simpa [realise] using realise_is_real A

/-! ## C8: hat adjacency closure -/

/-- C8: each of the 8 compass hat positions has a front and a back that are
again compass positions, iterating `front` returns to the start after
exactly 8 steps having visited all 8 positions exactly once, and no
position is its own front or back. -/
theorem hat_adjacency_closure :
    ∀ p ∈ hat_positions,
      (∃ q ∈ hat_positions, middle_to_front p = some q)
        ∧ (∃ q ∈ hat_positions, middle_to_back p = some q)
        ∧ front_step^[8] p = p
        ∧ ((List.range 8).map fun k => front_step^[k] p).Nodup
        ∧ (∀ q ∈ hat_positions, ∃ k < 8, front_step^[k] p = q)
        ∧ middle_to_front p ≠ some p
        ∧ middle_to_back p ≠ some p := by
  decide

/-- Witness for C8 at the position `SDL_HAT_UP`. -/
theorem hat_adjacency_closure_witness :
    SDL_HAT_UP ∈ hat_positions ∧
      ((∃ q ∈ hat_positions, middle_to_front SDL_HAT_UP = some q)
        ∧ (∃ q ∈ hat_positions, middle_to_back SDL_HAT_UP = some q)
        ∧ front_step^[8] SDL_HAT_UP = SDL_HAT_UP
        ∧ ((List.range 8).map fun k => front_step^[k] SDL_HAT_UP).Nodup
        ∧ (∀ q ∈ hat_positions, ∃ k < 8, front_step^[k] SDL_HAT_UP = q)
        ∧ middle_to_front SDL_HAT_UP ≠ some SDL_HAT_UP
        ∧ middle_to_back SDL_HAT_UP ≠ some SDL_HAT_UP) :=
  ⟨by decide, hat_adjacency_closure SDL_HAT_UP (by decide)⟩

/-! ## C7: clash symmetry -/

/-- `inside a b c` decides `a ≤ b ≤ c`. -/
theorem inside_iff (a b c : Int) : inside a b c = true ↔ a ≤ b ∧ b ≤ c := by
  unfold inside
  split <;> rename_i h <;> simp <;> omega

/-- Propositional reading of `clash`. -/
theorem clash_iff (x y : Capture) : clash x y = true ↔
    x.kind = y.kind ∧ x.id = y.id ∧
      (x.kind = BUTTON ∨ (x.kind = HAT ∧ x.data0 = y.data0) ∨
        (x.kind = AXIS ∧
          ((x.data0 ≤ y.data0 ∧ y.data0 ≤ x.data1)
            ∨ (x.data0 ≤ y.data1 ∧ y.data1 ≤ x.data1)
            ∨ (y.data0 ≤ x.data0 ∧ x.data0 ≤ y.data1)
            ∨ (y.data0 ≤ x.data1 ∧ x.data1 ≤ y.data1)))) := by
  simp only [clash, Bool.and_eq_true, Bool.or_eq_true, decide_eq_true_eq, inside_iff]
  tauto

/-- `clash` on bare quadruples is symmetric. -/
theorem clash_comm (x y : Capture) : clash x y = clash y x := by
  rw [Bool.eq_iff_iff, clash_iff, clash_iff]
  constructor
  · rintro ⟨hk, hid, h⟩
    refine ⟨hk.symm, hid.symm, ?_⟩
    rw [← hk]
    rcases h with h | ⟨h1, h2⟩ | ⟨h1, h2⟩
    · exact Or.inl h
    · exact Or.inr (Or.inl ⟨h1, h2.symm⟩)
    · exact Or.inr (Or.inr ⟨h1, by tauto⟩)
  · rintro ⟨hk, hid, h⟩
    refine ⟨hk.symm, hid.symm, ?_⟩
    rw [← hk]
    rcases h with h | ⟨h1, h2⟩ | ⟨h1, h2⟩
    · exact Or.inl h
    · exact Or.inr (Or.inl ⟨h1, h2.symm⟩)
    · exact Or.inr (Or.inr ⟨h1, by tauto⟩)

/-- C7: the configurer's clash predicate is symmetric in the two slot
indices, whatever quadruples the slots hold. -/
theorem clash_symmetric (c : Configurer) (x y : Int) :
    clash (parts_at c x) (parts_at c y) = clash (parts_at c y) (parts_at c x) :=
  clash_comm _ _

/-! ## Single-tick lemmas about `listen_for_signal` -/

theorem record_part_curr (c : Configurer) (cap : Capture) :
    (record_part c cap).curr_control = c.curr_control := rfl

theorem parts_at_record_self (c : Configurer) (cap : Capture) :
    parts_at (record_part c cap) c.curr_control = cap := by
  simp [parts_at, record_part]

theorem parts_at_record_other (c : Configurer) (cap : Capture) {i : Int}
    (h : i ≠ c.curr_control) : parts_at (record_part c cap) i = parts_at c i := by
  simp [parts_at, record_part, h]

/-- With nothing active on the device this tick, `listen_for_signal` is
`still_listening` and leaves the configurer untouched. -/
theorem listen_idle (c : Configurer) (ds : DevState)
    (hscan : scan_parts c.device c.neutral_min c.neutral_max ds = none) :
    c.listen_for_signal ds = (c, .still_listening) := by
  unfold Configurer.listen_for_signal
  rw [hscan]
  rfl

/-- Evaluating `check_signal` on a found signal. -/
theorem check_signal_true_eq (c : Configurer) :
    check_signal c true =
      if current_control_clashes c = true then (c, .duplicate)
      else if c.curr_control + 1 ≥ (NUM_CONTROLS : Int) then
        ({ c with curr_control := c.curr_control + 1 - 1 }, .success_finished)
      else ({ c with curr_control := c.curr_control + 1 }, .success_keep_going) := rfl

/-- Evaluating `check_signal` with no signal found. -/
theorem check_signal_false_eq (c : Configurer) :
    check_signal c false = (c, .still_listening) := rfl

theorem parts_at_set_curr (c : Configurer) (x : Int) (i : Int) :
    parts_at { c with curr_control := x } i = parts_at c i := rfl

/-- A captured signal that clashes with none of the already-filled slots
advances the capture: the result is `success_finished` on the last slot
(`curr_control` staying put) and `success_keep_going` otherwise
(`curr_control` stepping on); the capture lands in slot `k` and every
other slot, the device and the neutral zones are untouched. -/
theorem listen_advance (c : Configurer) (ds : DevState) (cap : Capture) (k : Nat)
    (hk : k < NUM_CONTROLS) (hcurr : c.curr_control = ↑k)
    (hscan : scan_parts c.device c.neutral_min c.neutral_max ds = some cap)
    (hnoclash : ∀ j < k, clash (parts_at c ↑j) cap = false) :
    (c.listen_for_signal ds).2
        = (if k + 1 = NUM_CONTROLS then .success_finished else .success_keep_going)
      ∧ (c.listen_for_signal ds).1.curr_control = ↑(if k + 1 = NUM_CONTROLS then k else k + 1)
      ∧ (∀ i : Int, i ≠ ↑k → parts_at (c.listen_for_signal ds).1 i = parts_at c i)
      ∧ parts_at (c.listen_for_signal ds).1 ↑k = cap
      ∧ (c.listen_for_signal ds).1.device = c.device
      ∧ (c.listen_for_signal ds).1.neutral_min = c.neutral_min
      ∧ (c.listen_for_signal ds).1.neutral_max = c.neutral_max := by
  have hccc : current_control_clashes (record_part c cap) = false := by
    unfold current_control_clashes
    rw [List.any_eq_false]
    intro j hj
    rw [record_part_curr, hcurr, Int.toNat_natCast, List.mem_range] at hj
    have hne : (↑j : Int) ≠ (↑k : Int) := by exact_mod_cast Nat.ne_of_lt hj
    rw [record_part_curr, hcurr]
    rw [parts_at_record_other c cap (by rw [hcurr]; exact hne),
      show (↑k : Int) = c.curr_control from hcurr.symm, parts_at_record_self]
    simp [hnoclash j hj]
  have h1 : c.listen_for_signal ds = check_signal (record_part c cap) true := by
    unfold Configurer.listen_for_signal
    rw [hscan]
  rw [h1, check_signal_true_eq, hccc]
  rw [if_neg (by simp)]
  by_cases hlast : k + 1 = NUM_CONTROLS
  · rw [if_pos (by rw [record_part_curr, hcurr]; omega), if_pos hlast]
    refine ⟨rfl, ?_, ?_, ?_, rfl, rfl, rfl⟩
    · rw [if_pos hlast]
      show (record_part c cap).curr_control + 1 - 1 = (↑k : Int)
      rw [record_part_curr, hcurr]
      ring
    · intro i hi
      rw [parts_at_set_curr]
      exact parts_at_record_other c cap (by rw [hcurr]; exact hi)
    · rw [parts_at_set_curr, show (↑k : Int) = c.curr_control from hcurr.symm,
        parts_at_record_self]
  · have hklt : k + 1 < NUM_CONTROLS := Nat.lt_of_le_of_ne hk hlast
    rw [if_neg (by rw [record_part_curr, hcurr]; omega), if_neg hlast]
    refine ⟨rfl, ?_, ?_, ?_, rfl, rfl, rfl⟩
    · rw [if_neg hlast]
      show (record_part c cap).curr_control + 1 = ((↑(k + 1) : Int))
      rw [record_part_curr, hcurr]
      push_cast
      ring
    · intro i hi
      rw [parts_at_set_curr]
      exact parts_at_record_other c cap (by rw [hcurr]; exact hi)
    · rw [parts_at_set_curr, show (↑k : Int) = c.curr_control from hcurr.symm,
        parts_at_record_self]

/-- A captured signal clashing with some already-filled slot is refused:
`duplicate` comes back, `curr_control` stays, and every slot other than the
(overwritten, still-current) slot `k` keeps its quadruple. -/
theorem listen_duplicate (c : Configurer) (ds : DevState) (cap : Capture) (k : Nat)
    (hcurr : c.curr_control = ↑k)
    (hscan : scan_parts c.device c.neutral_min c.neutral_max ds = some cap)
    (hclash : ∃ j < k, clash (parts_at c ↑j) cap = true) :
    (c.listen_for_signal ds).2 = .duplicate
      ∧ (c.listen_for_signal ds).1.curr_control = c.curr_control
      ∧ (∀ i : Int, i ≠ ↑k → parts_at (c.listen_for_signal ds).1 i = parts_at c i)
      ∧ (c.listen_for_signal ds).1.device = c.device
      ∧ (c.listen_for_signal ds).1.neutral_min = c.neutral_min
      ∧ (c.listen_for_signal ds).1.neutral_max = c.neutral_max := by
  obtain ⟨j, hjk, hcl⟩ := hclash
  have hccc : current_control_clashes (record_part c cap) = true := by
    unfold current_control_clashes
    rw [List.any_eq_true]
    refine ⟨j, ?_, ?_⟩
    · rw [record_part_curr, hcurr, Int.toNat_natCast, List.mem_range]
      exact hjk
    · have hne : (↑j : Int) ≠ (↑k : Int) := by exact_mod_cast Nat.ne_of_lt hjk
      rw [record_part_curr, hcurr]
      rw [parts_at_record_other c cap (by rw [hcurr]; exact hne),
        show (↑k : Int) = c.curr_control from hcurr.symm, parts_at_record_self]
      exact hcl
  have h1 : c.listen_for_signal ds = check_signal (record_part c cap) true := by
    unfold Configurer.listen_for_signal
    rw [hscan]
  rw [h1, check_signal_true_eq, hccc, if_pos rfl]
  refine ⟨rfl, record_part_curr c cap, ?_, rfl, rfl, rfl⟩
  intro i hi
  exact parts_at_record_other c cap (by rw [hcurr]; exact hi)

/-! ## Running the capture loop over successive ticks -/

/-- Driving `listen_for_signal` once per tick over a list of device
readings, collecting the returned results. -/
def run_listen (c : Configurer) : List DevState → Configurer × List listen_result
  | [] => (c, [])
  | d :: rest =>
      let r := c.listen_for_signal d
      let rr := run_listen r.1 rest
      (rr.1, r.2 :: rr.2)

/-- The capture loop from slot `k` with `m = NUM_CONTROLS - k` slots left:
ticks scanning to pairwise non-clashing captures return
`success_keep_going` until the last, which returns `success_finished`,
leave `curr_control` on the last slot, and fill the slots with exactly the
scanned captures. -/
theorem run_listen_full :
    ∀ (m k : Nat) (c : Configurer) (ds : Nat → DevState) (caps : Nat → Capture),
      k + m = NUM_CONTROLS → 0 < m → c.curr_control = ↑k →
      (∀ j < k, parts_at c ↑j = caps j) →
      (∀ i j, i < j → j < NUM_CONTROLS → clash (caps i) (caps j) = false) →
      (∀ i, k ≤ i → i < NUM_CONTROLS →
          scan_parts c.device c.neutral_min c.neutral_max (ds i) = some (caps i)) →
      (run_listen c ((List.range' k m).map ds)).2
          = List.replicate (m - 1) listen_result.success_keep_going
              ++ [listen_result.success_finished]
        ∧ (run_listen c ((List.range' k m).map ds)).1.curr_control = ↑(NUM_CONTROLS - 1)
        ∧ ∀ j < NUM_CONTROLS,
            parts_at (run_listen c ((List.range' k m).map ds)).1 ↑j = caps j := by
  intro m
  induction m with
  | zero =>
      intro k c ds caps hkm hpos
      omega
  | succ m ih =>
      intro k c ds caps hkm hpos hcurr hparts hpair hscan
      have hk : k < NUM_CONTROLS := by omega
      have hstep := listen_advance c (ds k) (caps k) k hk hcurr (hscan k le_rfl hk)
        (fun j hj => by rw [hparts j hj]; exact hpair j k hj hk)
      obtain ⟨hr2, hcurr1, hpres, hself, hdev1, hnm1, hnx1⟩ := hstep
      have hlist : (List.range' k (m + 1)).map ds = ds k :: (List.range' (k + 1) m).map ds := rfl
      rw [hlist]
      by_cases hm : m = 0
      · subst hm
        have h7 : k + 1 = NUM_CONTROLS := by omega
        rw [if_pos h7] at hr2 hcurr1
        refine ⟨?_, ?_, ?_⟩
        · show (c.listen_for_signal (ds k)).2
              :: (run_listen (c.listen_for_signal (ds k)).1 []).2 = _
          rw [hr2]
          rfl
        · show (run_listen (c.listen_for_signal (ds k)).1 []).1.curr_control = _
          have hk6 : k = NUM_CONTROLS - 1 := by omega
          rw [show (run_listen (c.listen_for_signal (ds k)).1 []).1
              = (c.listen_for_signal (ds k)).1 from rfl, hcurr1, hk6]
        · intro j hj
          show parts_at (c.listen_for_signal (ds k)).1 ↑j = caps j
          by_cases hjk : j = k
          · subst hjk
            exact hself
          · have hjlt : j < k := by omega
            have hne : (↑j : Int) ≠ ↑k := by exact_mod_cast hjk
            rw [hpres ↑j hne]
            exact hparts j hjlt
      · have hm1 : 0 < m := Nat.pos_of_ne_zero hm
        have hne7 : k + 1 ≠ NUM_CONTROLS := by omega
        rw [if_neg hne7] at hr2 hcurr1
        have ihres := ih (k + 1) (c.listen_for_signal (ds k)).1 ds caps (by omega) hm1 hcurr1
          (fun j hj => by
            by_cases hjk : j = k
            · subst hjk
              exact hself
            · have hjlt : j < k := by omega
              have hne : (↑j : Int) ≠ ↑k := by exact_mod_cast hjk
              rw [hpres ↑j hne]
              exact hparts j hjlt)
          hpair
          (fun i hki hi => by
            rw [hdev1, hnm1, hnx1]
            exact hscan i (by omega) hi)
        obtain ⟨ih2, ih1, ihparts⟩ := ihres
        refine ⟨?_, ?_, ?_⟩
        · show (c.listen_for_signal (ds k)).2
              :: (run_listen (c.listen_for_signal (ds k)).1 ((List.range' (k + 1) m).map ds)).2
              = _
          rw [hr2, ih2, Nat.add_sub_cancel]
          have hmm : m = (m - 1) + 1 := by omega
          rw [hmm, List.replicate_succ]
          rfl
        · exact ih1
        · exact ihparts

/-! ## What a scan can capture, and how `make` rebuilds it -/

theorem scan_axes_shape (ds : DevState) (nmin nmax : Nat → Int) :
    ∀ (l : List Nat) (cap : Capture), scan_axes ds nmin nmax l = some cap →
      cap.kind = AXIS := by
  intro l
  induction l with
  | nil => intro cap h; simp [scan_axes] at h
  | cons idx rest ihl =>
      intro cap h
      rw [scan_axes] at h
      split at h
      · cases h; rfl
      · split at h
        · cases h; rfl
        · exact ihl cap h

theorem scan_buttons_shape (ds : DevState) :
    ∀ (l : List Nat) (cap : Capture), scan_buttons ds l = some cap →
      cap.kind = BUTTON ∧ cap.data0 = 0 ∧ cap.data1 = 0 := by
  intro l
  induction l with
  | nil => intro cap h; simp [scan_buttons] at h
  | cons idx rest ihl =>
      intro cap h
      rw [scan_buttons] at h
      split at h
      · cases h; exact ⟨rfl, rfl, rfl⟩
      · exact ihl cap h

theorem scan_hats_shape (ds : DevState) :
    ∀ (l : List Nat) (cap : Capture), scan_hats ds l = some cap →
      cap.kind = HAT ∧ cap.data0 ≠ SDL_HAT_CENTERED ∧ cap.data1 = 0 := by
  intro l
  induction l with
  | nil => intro cap h; simp [scan_hats] at h
  | cons idx rest ihl =>
      intro cap h
      rw [scan_hats] at h
      split at h
      · next hval => cases h; exact ⟨rfl, hval, rfl⟩
      · exact ihl cap h

/-- Anything `listen_for_signal`'s scan captures is an axis quadruple, a
button quadruple with zeroed data, or a hat quadruple with a non-centered
position and zeroed data1. -/
theorem scan_parts_shape (dev : Device) (nmin nmax : Nat → Int) (ds : DevState) (cap : Capture)
    (h : scan_parts dev nmin nmax ds = some cap) :
    cap.kind = AXIS
      ∨ (cap.kind = BUTTON ∧ cap.data0 = 0 ∧ cap.data1 = 0)
      ∨ (cap.kind = HAT ∧ cap.data0 ≠ SDL_HAT_CENTERED ∧ cap.data1 = 0) := by
  unfold scan_parts at h
  split at h
  · next heq => cases h; exact Or.inl (scan_axes_shape ds nmin nmax _ _ heq)
  · split at h
    · next heq => cases h; exact Or.inr (Or.inl (scan_buttons_shape ds _ _ heq))
    · exact Or.inr (Or.inr (scan_hats_shape ds _ _ h))

/-- Every compass position has a front and a back. -/
theorem hat_position_has_adjacent :
    ∀ m ∈ hat_positions, (middle_to_front m).isSome = true ∧ (middle_to_back m).isSome = true := by
  decide

/-- A scanned capture (with a hat position SDL could actually report)
round-trips through `real_controller_signal::make`: the constructed signal
exists and carries exactly the captured quadruple. -/
theorem real_make_quad (cap : Capture)
    (hshape : cap.kind = AXIS
      ∨ (cap.kind = BUTTON ∧ cap.data0 = 0 ∧ cap.data1 = 0)
      ∨ (cap.kind = HAT ∧ cap.data0 ≠ SDL_HAT_CENTERED ∧ cap.data1 = 0))
    (hwf : cap.kind = HAT → cap.data0 ∈ hat_positions) :
    ∃ sig, real_make cap.kind cap.id cap.data0 cap.data1 = some sig
      ∧ get_kind sig = cap.kind ∧ get_id sig = cap.id
      ∧ get_data0 sig = cap.data0 ∧ get_data1 sig = cap.data1 := by
  rcases hshape with hax | ⟨hbt, hd0, hd1⟩ | ⟨hht, hd0, hd1⟩
  · refine ⟨.axis cap.id cap.data0 cap.data1, ?_, ?_, rfl, rfl, rfl⟩
    · rw [real_make, if_pos hax]
    · rw [get_kind, hax]
  · refine ⟨.button cap.id, ?_, ?_, rfl, ?_, ?_⟩
    · rw [real_make, if_neg (by rw [hbt]; decide), if_pos hbt]
    · rw [get_kind, hbt]
    · rw [get_data0, hd0]
    · rw [get_data1, hd1]
  · obtain ⟨hf0, hb0⟩ := hat_position_has_adjacent cap.data0 (hwf hht)
    obtain ⟨f, hf⟩ := Option.isSome_iff_exists.mp hf0
    obtain ⟨b, hb⟩ := Option.isSome_iff_exists.mp hb0
    refine ⟨.hat cap.id f cap.data0 b, ?_, ?_, rfl, rfl, ?_⟩
    · rw [real_make, if_neg (by rw [hht]; decide), if_neg (by rw [hht]; decide), if_pos hht]
      unfold hat_make
      simp only [if_neg hd0, hf, hb]
    · rw [get_kind, hht]
    · rw [get_data1, hd1]

/-- What `change_mapping` installs, slot by slot, when a device is in
use. -/
theorem change_mapping_spec (pc : PlayerController) (kinds ids d0 d1 : Int → Int)
    (dev : Device) (hdev : pc.device = some dev) :
    (change_mapping pc kinds ids d0 d1).default_config = false
      ∧ (change_mapping pc kinds ids d0 d1).signal_map.length = NUM_CONTROLS
      ∧ ∀ j < NUM_CONTROLS, (change_mapping pc kinds ids d0 d1).signal_map[j]?
          = some (real_make (kinds ↑j) (ids ↑j) (d0 ↑j) (d1 ↑j)) := by
  unfold change_mapping
  rw [hdev]
  refine ⟨rfl, by simp, ?_⟩
  intro j hj
  show ((List.range NUM_CONTROLS).map _)[j]? = _
  rw [List.getElem?_map, List.getElem?_range hj]
  rfl

/-- C1: a configuration session fed 7 pairwise non-clashing active inputs,
one per control in control order, answers `success_keep_going` six times and
then `success_finished`; ticks with nothing active leave the session
untouched (`still_listening`), so idle ticks may be interleaved freely; and
`apply_configuration` then installs exactly the 7 captured
(kind, id, data0, data1) quadruples as the player controller's signal map,
clearing the default-config flag. -/
theorem configurer_round_trip {α : Type}
    (c0 : Configurer) (ds : Nat → DevState) (caps : Nat → Capture)
    (pc : PlayerController) (dev : Device) (store : α)
    (hcurr : c0.curr_control = 0)
    (hscan : ∀ i < NUM_CONTROLS,
        scan_parts c0.device c0.neutral_min c0.neutral_max (ds i) = some (caps i))
    (hpair : ∀ i j, i < j → j < NUM_CONTROLS → clash (caps i) (caps j) = false)
    (hwf : ∀ i < NUM_CONTROLS, (caps i).kind = HAT → (caps i).data0 ∈ hat_positions)
    (hdev : pc.device = some dev) :
    (run_listen c0 ((List.range NUM_CONTROLS).map ds)).2
        = List.replicate (NUM_CONTROLS - 1) listen_result.success_keep_going
            ++ [listen_result.success_finished]
      ∧ (∀ (c : Configurer) (dsi : DevState),
          scan_parts c.device c.neutral_min c.neutral_max dsi = none →
          c.listen_for_signal dsi = (c, .still_listening))
      ∧ ∃ pc2,
          (apply_configuration
              (⟨some pc, some (run_listen c0 ((List.range NUM_CONTROLS).map ds)).1, store⟩
                : GlobalState α)).local_joystick = some pc2
            ∧ pc2.default_config = false
            ∧ pc2.signal_map.length = NUM_CONTROLS
            ∧ ∀ j < NUM_CONTROLS, ∃ sig,
                pc2.signal_map[j]? = some (some sig)
                  ∧ get_kind sig = (caps j).kind ∧ get_id sig = (caps j).id
                  ∧ get_data0 sig = (caps j).data0 ∧ get_data1 sig = (caps j).data1 := by
  have hrange : List.range NUM_CONTROLS = List.range' 0 NUM_CONTROLS := List.range_eq_range' _
  have hrun := run_listen_full NUM_CONTROLS 0 c0 ds caps (Nat.zero_add _) (by decide)
    (by rw [hcurr]; simp)
    (fun j hj => absurd hj (Nat.not_lt_zero j))
    hpair
    (fun i _ hi => hscan i hi)
  rw [← hrange] at hrun
  obtain ⟨h2, h1c, hparts7⟩ := hrun
  refine ⟨h2, fun c dsi h => listen_idle c dsi h, ?_⟩
  obtain ⟨hdc, hlen, hslot⟩ := change_mapping_spec pc
    (run_listen c0 ((List.range NUM_CONTROLS).map ds)).1.part_kinds
    (run_listen c0 ((List.range NUM_CONTROLS).map ds)).1.part_ids
    (run_listen c0 ((List.range NUM_CONTROLS).map ds)).1.part_data0
    (run_listen c0 ((List.range NUM_CONTROLS).map ds)).1.part_data1
    dev hdev
  refine ⟨_, rfl, hdc, hlen, ?_⟩
  intro j hj
  have h4 := hparts7 j hj
  rw [parts_at] at h4
  rw [show caps j = ⟨(caps j).kind, (caps j).id, (caps j).data0, (caps j).data1⟩ from rfl,
    Capture.mk.injEq] at h4
  obtain ⟨hkk, hii, h00, h11⟩ := h4
  obtain ⟨sig, hmk, hgk, hgi, hg0, hg1⟩ := real_make_quad (caps j)
    (scan_parts_shape c0.device c0.neutral_min c0.neutral_max (ds j) (caps j) (hscan j hj))
    (hwf j hj)
  refine ⟨sig, ?_, hgk, hgi, hg0, hg1⟩
  rw [hslot j hj, hkk, hii, h00, h11, hmk]

/-- Witness for C1: a 7-button device, the buttons pressed one at a time in
control order. -/
theorem configurer_round_trip_witness :
    (start_session (⟨0, "g", "n", true, 0, 7, 0, false, false, false, false⟩ : Device) (fun _ => 0) (fun _ => 0) (fun _ => 0) (fun _ => 0)).curr_control = 0
      ∧ (∀ i < NUM_CONTROLS,
          scan_parts (start_session (⟨0, "g", "n", true, 0, 7, 0, false, false, false, false⟩ : Device) (fun _ => 0) (fun _ => 0) (fun _ => 0) (fun _ => 0)).device (start_session (⟨0, "g", "n", true, 0, 7, 0, false, false, false, false⟩ : Device) (fun _ => 0) (fun _ => 0) (fun _ => 0) (fun _ => 0)).neutral_min (start_session (⟨0, "g", "n", true, 0, 7, 0, false, false, false, false⟩ : Device) (fun _ => 0) (fun _ => 0) (fun _ => 0) (fun _ => 0)).neutral_max ((fun i : Nat => (⟨fun _ => 0, fun b => b == ↑i, fun _ => 0⟩ : DevState)) i)
            = some ((fun i : Nat => (⟨BUTTON, ↑i, 0, 0⟩ : Capture)) i))
      ∧ (∀ i j, i < j → j < NUM_CONTROLS → clash ((fun i : Nat => (⟨BUTTON, ↑i, 0, 0⟩ : Capture)) i) ((fun i : Nat => (⟨BUTTON, ↑i, 0, 0⟩ : Capture)) j) = false)
      ∧ (∀ i < NUM_CONTROLS, ((fun i : Nat => (⟨BUTTON, ↑i, 0, 0⟩ : Capture)) i).kind = HAT → ((fun i : Nat => (⟨BUTTON, ↑i, 0, 0⟩ : Capture)) i).data0 ∈ hat_positions)
      ∧ ((⟨some (⟨0, "g", "n", true, 0, 7, 0, false, false, false, false⟩ : Device), [], true⟩ : PlayerController)).device = some (⟨0, "g", "n", true, 0, 7, 0, false, false, false, false⟩ : Device)
      ∧ ((run_listen (start_session (⟨0, "g", "n", true, 0, 7, 0, false, false, false, false⟩ : Device) (fun _ => 0) (fun _ => 0) (fun _ => 0) (fun _ => 0)) ((List.range NUM_CONTROLS).map (fun i : Nat => (⟨fun _ => 0, fun b => b == ↑i, fun _ => 0⟩ : DevState)))).2
            = List.replicate (NUM_CONTROLS - 1) listen_result.success_keep_going
                ++ [listen_result.success_finished]
          ∧ (∀ (c : Configurer) (dsi : DevState),
              scan_parts c.device c.neutral_min c.neutral_max dsi = none →
              c.listen_for_signal dsi = (c, .still_listening))
          ∧ ∃ pc2,
              (apply_configuration
                  (⟨some (⟨some (⟨0, "g", "n", true, 0, 7, 0, false, false, false, false⟩ : Device), [], true⟩ : PlayerController),
                    some (run_listen (start_session (⟨0, "g", "n", true, 0, 7, 0, false, false, false, false⟩ : Device) (fun _ => 0) (fun _ => 0) (fun _ => 0) (fun _ => 0)) ((List.range NUM_CONTROLS).map (fun i : Nat => (⟨fun _ => 0, fun b => b == ↑i, fun _ => 0⟩ : DevState)))).1,
                    (0 : Nat)⟩ : GlobalState Nat)).local_joystick = some pc2
                ∧ pc2.default_config = false
                ∧ pc2.signal_map.length = NUM_CONTROLS
                ∧ ∀ j < NUM_CONTROLS, ∃ sig,
                    pc2.signal_map[j]? = some (some sig)
                      ∧ get_kind sig = ((fun i : Nat => (⟨BUTTON, ↑i, 0, 0⟩ : Capture)) j).kind ∧ get_id sig = ((fun i : Nat => (⟨BUTTON, ↑i, 0, 0⟩ : Capture)) j).id
                      ∧ get_data0 sig = ((fun i : Nat => (⟨BUTTON, ↑i, 0, 0⟩ : Capture)) j).data0
                      ∧ get_data1 sig = ((fun i : Nat => (⟨BUTTON, ↑i, 0, 0⟩ : Capture)) j).data1) := by
  refine ⟨rfl, ?_, ?_, ?_, rfl, ?_⟩
  · decide
  · intro i j hij hj
    have hne : (↑i : Int) ≠ ↑j := by exact_mod_cast Nat.ne_of_lt hij
    simp [clash, hne]
  · decide
  · exact configurer_round_trip _ _ _ _ _ _ rfl (by decide)
      (fun i j hij hj => by
        have hne : (↑i : Int) ≠ ↑j := by exact_mod_cast Nat.ne_of_lt hij
        simp [clash, hne])
      (by decide) rfl

/-- C3: a captured input clashing with an already-captured slot of the same
session makes `listen_for_signal` return `duplicate` without advancing the
current slot; a subsequent non-clashing input for that same slot then
advances it, returning `success_keep_going` (or `success_finished` on the
last slot). -/
theorem clash_rejection (c : Configurer) (d d2 : DevState) (cap cap2 : Capture) (k : Nat)
    (hk : k < NUM_CONTROLS) (hcurr : c.curr_control = ↑k)
    (hscan : scan_parts c.device c.neutral_min c.neutral_max d = some cap)
    (hclash : ∃ j < k, clash (parts_at c ↑j) cap = true)
    (hscan2 : scan_parts c.device c.neutral_min c.neutral_max d2 = some cap2)
    (hnc : ∀ j < k, clash (parts_at c ↑j) cap2 = false) :
    (c.listen_for_signal d).2 = .duplicate
      ∧ (c.listen_for_signal d).1.curr_control = c.curr_control
      ∧ (((c.listen_for_signal d).1.listen_for_signal d2).2 = .success_keep_going
          ∨ ((c.listen_for_signal d).1.listen_for_signal d2).2 = .success_finished)
      ∧ ((c.listen_for_signal d).1.listen_for_signal d2).1.curr_control
          = ↑(if k + 1 = NUM_CONTROLS then k else k + 1) := by
  obtain ⟨hd2, hdcurr, hdpres, hddev, hdnm, hdnx⟩ := listen_duplicate c d cap k hcurr hscan hclash
  have hcurr1 : (c.listen_for_signal d).1.curr_control = ↑k := hdcurr.trans hcurr
  have hscan2a : scan_parts (c.listen_for_signal d).1.device
      (c.listen_for_signal d).1.neutral_min (c.listen_for_signal d).1.neutral_max d2
      = some cap2 := by
    rw [hddev, hdnm, hdnx]
    exact hscan2
  have hnc1 : ∀ j < k, clash (parts_at (c.listen_for_signal d).1 ↑j) cap2 = false := by
    intro j hj
    have hne : (↑j : Int) ≠ ↑k := by exact_mod_cast Nat.ne_of_lt hj
    rw [hdpres ↑j hne]
    exact hnc j hj
  obtain ⟨ha2, hacurr, -, -, -, -, -⟩ :=
    listen_advance (c.listen_for_signal d).1 d2 cap2 k hk hcurr1 hscan2a hnc1
  refine ⟨hd2, hdcurr, ?_, hacurr⟩
  rw [ha2]
  by_cases h7 : k + 1 = NUM_CONTROLS
  · right
    rw [if_pos h7]
  · left
    rw [if_neg h7]

/-- Witness for C3: slot 0 already holds button 0; pressing button 0 again
for slot 1 is a duplicate, then button 1 succeeds. -/
theorem clash_rejection_witness :
    (1 < NUM_CONTROLS)
      ∧ ((⟨(⟨0, "g", "n", true, 0, 2, 0, false, false, false, false⟩ : Device), 1, fun _ => BUTTON, fun _ => 0, fun _ => 0, fun _ => 0, fun _ => 0, fun _ => 0⟩ : Configurer)).curr_control = ↑(1 : Nat)
      ∧ scan_parts ((⟨(⟨0, "g", "n", true, 0, 2, 0, false, false, false, false⟩ : Device), 1, fun _ => BUTTON, fun _ => 0, fun _ => 0, fun _ => 0, fun _ => 0, fun _ => 0⟩ : Configurer)).device ((⟨(⟨0, "g", "n", true, 0, 2, 0, false, false, false, false⟩ : Device), 1, fun _ => BUTTON, fun _ => 0, fun _ => 0, fun _ => 0, fun _ => 0, fun _ => 0⟩ : Configurer)).neutral_min ((⟨(⟨0, "g", "n", true, 0, 2, 0, false, false, false, false⟩ : Device), 1, fun _ => BUTTON, fun _ => 0, fun _ => 0, fun _ => 0, fun _ => 0, fun _ => 0⟩ : Configurer)).neutral_max (⟨fun _ => 0, fun b => b == 0, fun _ => 0⟩ : DevState) = some (⟨BUTTON, 0, 0, 0⟩ : Capture)
      ∧ (∃ j < (1 : Nat), clash (parts_at (⟨(⟨0, "g", "n", true, 0, 2, 0, false, false, false, false⟩ : Device), 1, fun _ => BUTTON, fun _ => 0, fun _ => 0, fun _ => 0, fun _ => 0, fun _ => 0⟩ : Configurer) ↑j) (⟨BUTTON, 0, 0, 0⟩ : Capture) = true)
      ∧ scan_parts ((⟨(⟨0, "g", "n", true, 0, 2, 0, false, false, false, false⟩ : Device), 1, fun _ => BUTTON, fun _ => 0, fun _ => 0, fun _ => 0, fun _ => 0, fun _ => 0⟩ : Configurer)).device ((⟨(⟨0, "g", "n", true, 0, 2, 0, false, false, false, false⟩ : Device), 1, fun _ => BUTTON, fun _ => 0, fun _ => 0, fun _ => 0, fun _ => 0, fun _ => 0⟩ : Configurer)).neutral_min ((⟨(⟨0, "g", "n", true, 0, 2, 0, false, false, false, false⟩ : Device), 1, fun _ => BUTTON, fun _ => 0, fun _ => 0, fun _ => 0, fun _ => 0, fun _ => 0⟩ : Configurer)).neutral_max (⟨fun _ => 0, fun b => b == 1, fun _ => 0⟩ : DevState) = some (⟨BUTTON, 1, 0, 0⟩ : Capture)
      ∧ (∀ j < (1 : Nat), clash (parts_at (⟨(⟨0, "g", "n", true, 0, 2, 0, false, false, false, false⟩ : Device), 1, fun _ => BUTTON, fun _ => 0, fun _ => 0, fun _ => 0, fun _ => 0, fun _ => 0⟩ : Configurer) ↑j) (⟨BUTTON, 1, 0, 0⟩ : Capture) = false)
      ∧ ((((⟨(⟨0, "g", "n", true, 0, 2, 0, false, false, false, false⟩ : Device), 1, fun _ => BUTTON, fun _ => 0, fun _ => 0, fun _ => 0, fun _ => 0, fun _ => 0⟩ : Configurer)).listen_for_signal (⟨fun _ => 0, fun b => b == 0, fun _ => 0⟩ : DevState)).2 = .duplicate
          ∧ (((⟨(⟨0, "g", "n", true, 0, 2, 0, false, false, false, false⟩ : Device), 1, fun _ => BUTTON, fun _ => 0, fun _ => 0, fun _ => 0, fun _ => 0, fun _ => 0⟩ : Configurer)).listen_for_signal (⟨fun _ => 0, fun b => b == 0, fun _ => 0⟩ : DevState)).1.curr_control = ((⟨(⟨0, "g", "n", true, 0, 2, 0, false, false, false, false⟩ : Device), 1, fun _ => BUTTON, fun _ => 0, fun _ => 0, fun _ => 0, fun _ => 0, fun _ => 0⟩ : Configurer)).curr_control
          ∧ (((((⟨(⟨0, "g", "n", true, 0, 2, 0, false, false, false, false⟩ : Device), 1, fun _ => BUTTON, fun _ => 0, fun _ => 0, fun _ => 0, fun _ => 0, fun _ => 0⟩ : Configurer)).listen_for_signal (⟨fun _ => 0, fun b => b == 0, fun _ => 0⟩ : DevState)).1.listen_for_signal (⟨fun _ => 0, fun b => b == 1, fun _ => 0⟩ : DevState)).2
                = .success_keep_going
              ∨ ((((⟨(⟨0, "g", "n", true, 0, 2, 0, false, false, false, false⟩ : Device), 1, fun _ => BUTTON, fun _ => 0, fun _ => 0, fun _ => 0, fun _ => 0, fun _ => 0⟩ : Configurer)).listen_for_signal (⟨fun _ => 0, fun b => b == 0, fun _ => 0⟩ : DevState)).1.listen_for_signal (⟨fun _ => 0, fun b => b == 1, fun _ => 0⟩ : DevState)).2
                = .success_finished)
          ∧ ((((⟨(⟨0, "g", "n", true, 0, 2, 0, false, false, false, false⟩ : Device), 1, fun _ => BUTTON, fun _ => 0, fun _ => 0, fun _ => 0, fun _ => 0, fun _ => 0⟩ : Configurer)).listen_for_signal (⟨fun _ => 0, fun b => b == 0, fun _ => 0⟩ : DevState)).1.listen_for_signal (⟨fun _ => 0, fun b => b == 1, fun _ => 0⟩ : DevState)).1.curr_control
              = ↑(if 1 + 1 = NUM_CONTROLS then 1 else 1 + 1)) := by
  refine ⟨by decide, by decide, by decide, by decide, by decide, by decide, ?_⟩
  exact clash_rejection (⟨(⟨0, "g", "n", true, 0, 2, 0, false, false, false, false⟩ : Device), 1, fun _ => BUTTON, fun _ => 0, fun _ => 0, fun _ => 0, fun _ => 0, fun _ => 0⟩ : Configurer) (⟨fun _ => 0, fun b => b == 0, fun _ => 0⟩ : DevState) (⟨fun _ => 0, fun b => b == 1, fun _ => 0⟩ : DevState)
    (⟨BUTTON, 0, 0, 0⟩ : Capture) (⟨BUTTON, 1, 0, 0⟩ : Capture) 1 (by decide) (by decide) (by decide) (by decide)
    (by decide) (by decide)

/-- `retreat` steps `curr_control` back, clamping at 0. -/
theorem retreat_curr (c : Configurer) :
    c.retreat.1.curr_control
      = if c.curr_control - 1 < 0 then c.curr_control - 1 + 1 else c.curr_control - 1 := by
  unfold Configurer.retreat
  dsimp only
  by_cases hneg : c.curr_control - 1 < 0
  · rw [if_pos hneg, if_pos hneg]
  · rw [if_neg hneg, if_neg hneg]

/-- One capture-loop operation keeps `curr_control` within
`[0, NUM_CONTROLS - 1]`. -/
theorem config_op_preserves_bounds (c : Configurer) (op : ConfigOp)
    (h0 : 0 ≤ c.curr_control) (h1 : c.curr_control ≤ ↑(NUM_CONTROLS - 1)) :
    0 ≤ (apply_config_op c op).curr_control
      ∧ (apply_config_op c op).curr_control ≤ ↑(NUM_CONTROLS - 1) := by
  have e1 : ((NUM_CONTROLS - 1 : Nat) : Int) = 6 := rfl
  have e2 : ((NUM_CONTROLS : Nat) : Int) = 7 := rfl
  rw [e1] at h1 ⊢
  cases op with
  | retreat =>
      show 0 ≤ c.retreat.1.curr_control ∧ c.retreat.1.curr_control ≤ 6
      rw [retreat_curr]
      split <;> omega
  | listen ds =>
      show 0 ≤ (c.listen_for_signal ds).1.curr_control
        ∧ (c.listen_for_signal ds).1.curr_control ≤ 6
      cases hscan : scan_parts c.device c.neutral_min c.neutral_max ds with
      | none =>
          rw [show c.listen_for_signal ds = check_signal c false by
              unfold Configurer.listen_for_signal; rw [hscan],
            check_signal_false_eq]
          exact ⟨h0, h1⟩
      | some cap =>
          rw [show c.listen_for_signal ds = check_signal (record_part c cap) true by
              unfold Configurer.listen_for_signal; rw [hscan],
            check_signal_true_eq]
          by_cases hccc : current_control_clashes (record_part c cap) = true
          · rw [if_pos hccc]
            show 0 ≤ (record_part c cap).curr_control ∧ (record_part c cap).curr_control ≤ 6
            rw [record_part_curr]
            exact ⟨h0, h1⟩
          · rw [if_neg hccc]
            by_cases hge : (record_part c cap).curr_control + 1 ≥ (NUM_CONTROLS : Int)
            · rw [if_pos hge]
              show 0 ≤ (record_part c cap).curr_control + 1 - 1
                ∧ (record_part c cap).curr_control + 1 - 1 ≤ 6
              rw [record_part_curr] at hge ⊢
              rw [e2] at hge
              omega
            · rw [if_neg hge]
              show 0 ≤ (record_part c cap).curr_control + 1
                ∧ (record_part c cap).curr_control + 1 ≤ 6
              rw [record_part_curr] at hge ⊢
              rw [e2] at hge
              omega

/-- The bound holds after any sequence of capture-loop operations. -/
theorem run_config_ops_bounds (ops : List ConfigOp) :
    ∀ c : Configurer, 0 ≤ c.curr_control → c.curr_control ≤ ↑(NUM_CONTROLS - 1) →
      0 ≤ (run_config_ops c ops).curr_control
        ∧ (run_config_ops c ops).curr_control ≤ ↑(NUM_CONTROLS - 1) := by
  induction ops with
  | nil => exact fun c h0 h1 => ⟨h0, h1⟩
  | cons op rest ih =>
      intro c h0 h1
      obtain ⟨g0, g1⟩ := config_op_preserves_bounds c op h0 h1
      exact ih _ g0 g1

/-- C10: starting from a fresh session, any sequence of `listen_for_signal`
and `retreat` calls keeps the slot index inside `[0, NUM_CONTROLS - 1]`;
`retreat` at slot 0 answers false leaving the index at 0; and a clean
capture on the last slot answers `success_finished` leaving the index at
`NUM_CONTROLS - 1`.  The `part_*` arrays are therefore only ever indexed at
`curr_control ∈ [0, NUM_CONTROLS - 1]`. -/
theorem curr_control_bounds :
    (∀ (dev : Device) (jk ji j0 j1 : Int → Int) (ops : List ConfigOp),
        0 ≤ (run_config_ops (start_session dev jk ji j0 j1) ops).curr_control
          ∧ (run_config_ops (start_session dev jk ji j0 j1) ops).curr_control
              ≤ ↑(NUM_CONTROLS - 1))
      ∧ (∀ c : Configurer, c.curr_control = 0 →
          c.retreat.2 = false ∧ c.retreat.1.curr_control = 0)
      ∧ (∀ (c : Configurer) (d : DevState) (cap : Capture),
          c.curr_control = ↑(NUM_CONTROLS - 1) →
          scan_parts c.device c.neutral_min c.neutral_max d = some cap →
          (∀ j < NUM_CONTROLS - 1, clash (parts_at c ↑j) cap = false) →
          (c.listen_for_signal d).2 = .success_finished
            ∧ (c.listen_for_signal d).1.curr_control = ↑(NUM_CONTROLS - 1)) := by
  refine ⟨?_, ?_, ?_⟩
  · intro dev jk ji j0 j1 ops
    exact run_config_ops_bounds ops (start_session dev jk ji j0 j1) (le_refl 0)
      (show (0 : Int) ≤ 6 by norm_num)
  · intro c h
    unfold Configurer.retreat
    rw [h]
    norm_num
  · intro c d cap hcurr hscan hnc
    obtain ⟨h2, hcurr1, -, -, -, -, -⟩ :=
      listen_advance c d cap (NUM_CONTROLS - 1) (by decide) hcurr hscan hnc
    rw [if_pos (by decide)] at h2
    rw [if_pos (by decide)] at hcurr1
    exact ⟨h2, hcurr1⟩

/-- Witness for C10: two operations on a fresh session, a retreat at slot 0,
and the finishing capture on the last slot of an almost-complete session. -/
theorem curr_control_bounds_witness :
    (0 ≤ (run_config_ops (start_session (⟨0, "g", "n", true, 0, 2, 0, false, false, false, false⟩ : Device) (fun _ => 0) (fun _ => 0) (fun _ => 0) (fun _ => 0))
            [ConfigOp.retreat, ConfigOp.listen (⟨fun _ => 0, fun b => b == 0, fun _ => 0⟩ : DevState)]).curr_control
        ∧ (run_config_ops (start_session (⟨0, "g", "n", true, 0, 2, 0, false, false, false, false⟩ : Device) (fun _ => 0) (fun _ => 0) (fun _ => 0) (fun _ => 0))
            [ConfigOp.retreat, ConfigOp.listen (⟨fun _ => 0, fun b => b == 0, fun _ => 0⟩ : DevState)]).curr_control
            ≤ ↑(NUM_CONTROLS - 1))
      ∧ ((start_session (⟨0, "g", "n", true, 0, 2, 0, false, false, false, false⟩ : Device) (fun _ => 0) (fun _ => 0) (fun _ => 0) (fun _ => 0)).curr_control = 0
          ∧ (start_session (⟨0, "g", "n", true, 0, 2, 0, false, false, false, false⟩ : Device) (fun _ => 0) (fun _ => 0) (fun _ => 0) (fun _ => 0)).retreat.2 = false
          ∧ (start_session (⟨0, "g", "n", true, 0, 2, 0, false, false, false, false⟩ : Device) (fun _ => 0) (fun _ => 0) (fun _ => 0) (fun _ => 0)).retreat.1.curr_control = 0)
      ∧ (((⟨(⟨0, "g", "n", true, 0, 7, 0, false, false, false, false⟩ : Device), 6, fun _ => BUTTON, fun j => j, fun _ => 0, fun _ => 0, fun _ => 0, fun _ => 0⟩ : Configurer)).curr_control = ↑(NUM_CONTROLS - 1)
          ∧ scan_parts ((⟨(⟨0, "g", "n", true, 0, 7, 0, false, false, false, false⟩ : Device), 6, fun _ => BUTTON, fun j => j, fun _ => 0, fun _ => 0, fun _ => 0, fun _ => 0⟩ : Configurer)).device ((⟨(⟨0, "g", "n", true, 0, 7, 0, false, false, false, false⟩ : Device), 6, fun _ => BUTTON, fun j => j, fun _ => 0, fun _ => 0, fun _ => 0, fun _ => 0⟩ : Configurer)).neutral_min ((⟨(⟨0, "g", "n", true, 0, 7, 0, false, false, false, false⟩ : Device), 6, fun _ => BUTTON, fun j => j, fun _ => 0, fun _ => 0, fun _ => 0, fun _ => 0⟩ : Configurer)).neutral_max (⟨fun _ => 0, fun b => b == 6, fun _ => 0⟩ : DevState)
              = some (⟨BUTTON, 6, 0, 0⟩ : Capture)
          ∧ (∀ j < NUM_CONTROLS - 1, clash (parts_at (⟨(⟨0, "g", "n", true, 0, 7, 0, false, false, false, false⟩ : Device), 6, fun _ => BUTTON, fun j => j, fun _ => 0, fun _ => 0, fun _ => 0, fun _ => 0⟩ : Configurer) ↑j) (⟨BUTTON, 6, 0, 0⟩ : Capture) = false)
          ∧ (((⟨(⟨0, "g", "n", true, 0, 7, 0, false, false, false, false⟩ : Device), 6, fun _ => BUTTON, fun j => j, fun _ => 0, fun _ => 0, fun _ => 0, fun _ => 0⟩ : Configurer)).listen_for_signal (⟨fun _ => 0, fun b => b == 6, fun _ => 0⟩ : DevState)).2 = .success_finished
          ∧ (((⟨(⟨0, "g", "n", true, 0, 7, 0, false, false, false, false⟩ : Device), 6, fun _ => BUTTON, fun j => j, fun _ => 0, fun _ => 0, fun _ => 0, fun _ => 0⟩ : Configurer)).listen_for_signal (⟨fun _ => 0, fun b => b == 6, fun _ => 0⟩ : DevState)).1.curr_control = ↑(NUM_CONTROLS - 1)) := by
  refine ⟨curr_control_bounds.1 (⟨0, "g", "n", true, 0, 2, 0, false, false, false, false⟩ : Device) (fun _ => 0) (fun _ => 0) (fun _ => 0) (fun _ => 0)
      [ConfigOp.retreat, ConfigOp.listen (⟨fun _ => 0, fun b => b == 0, fun _ => 0⟩ : DevState)],
    ⟨rfl, curr_control_bounds.2.1 (start_session (⟨0, "g", "n", true, 0, 2, 0, false, false, false, false⟩ : Device) (fun _ => 0) (fun _ => 0) (fun _ => 0) (fun _ => 0)) rfl⟩,
    ⟨by decide, by decide, by decide, ?_⟩⟩
  exact curr_control_bounds.2.2 (⟨(⟨0, "g", "n", true, 0, 7, 0, false, false, false, false⟩ : Device), 6, fun _ => BUTTON, fun j => j, fun _ => 0, fun _ => 0, fun _ => 0, fun _ => 0⟩ : Configurer) (⟨fun _ => 0, fun b => b == 6, fun _ => 0⟩ : DevState) (⟨BUTTON, 6, 0, 0⟩ : Capture) (by decide) (by decide) (by decide)

/-- Any configuration-session entry point other than `apply_configuration`
leaves the player controller and the persisted store untouched: those
operations only create, mutate or delete `local_configurer`. -/
theorem session_step_preserves {α : Type} (g : GlobalState α) (op : SessionOp)
    (h : op.is_apply = false) :
    (session_step g op).local_joystick = g.local_joystick
      ∧ (session_step g op).prefs_store = g.prefs_store := by
  cases op with
  | start =>
      show (start_configurer g).local_joystick = _ ∧ (start_configurer g).prefs_store = _
      unfold start_configurer
      split
      · split
        · exact ⟨rfl, rfl⟩
        · exact ⟨rfl, rfl⟩
      · exact ⟨rfl, rfl⟩
  | clear_nz =>
      show (clear_neutral_zones g).local_joystick = _ ∧ (clear_neutral_zones g).prefs_store = _
      unfold clear_neutral_zones
      split
      · exact ⟨rfl, rfl⟩
      · exact ⟨rfl, rfl⟩
  | default_nz =>
      show (default_neutral_zones g).local_joystick = _
          ∧ (default_neutral_zones g).prefs_store = _
      unfold default_neutral_zones
      split
      · exact ⟨rfl, rfl⟩
      · exact ⟨rfl, rfl⟩
  | tick_nz ds =>
      show (examine_neutral_zones_tick g ds).local_joystick = _
          ∧ (examine_neutral_zones_tick g ds).prefs_store = _
      unfold examine_neutral_zones_tick
      split
      · exact ⟨rfl, rfl⟩
      · exact ⟨rfl, rfl⟩
  | listen ds =>
      show (listen_for_signal g ds).1.local_joystick = _
          ∧ (listen_for_signal g ds).1.prefs_store = _
      unfold listen_for_signal
      split
      · exact ⟨rfl, rfl⟩
      · exact ⟨rfl, rfl⟩
  | step_back =>
      show (retreat g).1.local_joystick = _ ∧ (retreat g).1.prefs_store = _
      unfold retreat
      split
      · exact ⟨rfl, rfl⟩
      · exact ⟨rfl, rfl⟩
  | apply_conf => simp [SessionOp.is_apply] at h
  | stop => exact ⟨rfl, rfl⟩

/-- C2: a configuration session driven by any sequence of session entry
points that never invokes `apply_configuration` — including a `stop`
anywhere, e.g. a cancel after 3 of 7 captures — leaves the player
controller (device, signal map and default-config flag) equal to its
pre-session value and writes nothing to the persisted store. -/
theorem abort_cleanliness {α : Type} (g : GlobalState α) (ops : List SessionOp)
    (h : ops.all (fun op => !op.is_apply) = true) :
    (run_session g ops).local_joystick = g.local_joystick
      ∧ (run_session g ops).prefs_store = g.prefs_store := by
  induction ops generalizing g with
  | nil => exact ⟨rfl, rfl⟩
  | cons op rest ih =>
      rw [List.all_cons, Bool.and_eq_true] at h
      obtain ⟨hop, hrest⟩ := h
      rw [Bool.not_eq_true'] at hop
      obtain ⟨h1, h2⟩ := session_step_preserves g op hop
      obtain ⟨r1, r2⟩ := ih (session_step g op) hrest
      exact ⟨r1.trans h1, r2.trans h2⟩

/-- Witness for C2: start a session, capture 3 of the 7 controls, then
stop; the player controller and the store are as before. -/
theorem abort_cleanliness_witness :
    ([SessionOp.start, SessionOp.listen (⟨fun _ => 0, fun b => b == 0, fun _ => 0⟩ : DevState), SessionOp.listen (⟨fun _ => 0, fun b => b == 1, fun _ => 0⟩ : DevState), SessionOp.listen (⟨fun _ => 0, fun b => b == 2, fun _ => 0⟩ : DevState), SessionOp.stop]).all (fun op => !op.is_apply) = true
      ∧ (run_session (⟨some (⟨some (⟨0, "g", "n", true, 0, 7, 0, false, false, false, false⟩ : Device), [some (Signal.button 5)], false⟩ : PlayerController), none, (0 : Nat)⟩ : GlobalState Nat)
            [SessionOp.start, SessionOp.listen (⟨fun _ => 0, fun b => b == 0, fun _ => 0⟩ : DevState), SessionOp.listen (⟨fun _ => 0, fun b => b == 1, fun _ => 0⟩ : DevState), SessionOp.listen (⟨fun _ => 0, fun b => b == 2, fun _ => 0⟩ : DevState), SessionOp.stop]).local_joystick
          = ((⟨some (⟨some (⟨0, "g", "n", true, 0, 7, 0, false, false, false, false⟩ : Device), [some (Signal.button 5)], false⟩ : PlayerController), none, (0 : Nat)⟩ : GlobalState Nat)).local_joystick
      ∧ (run_session (⟨some (⟨some (⟨0, "g", "n", true, 0, 7, 0, false, false, false, false⟩ : Device), [some (Signal.button 5)], false⟩ : PlayerController), none, (0 : Nat)⟩ : GlobalState Nat)
            [SessionOp.start, SessionOp.listen (⟨fun _ => 0, fun b => b == 0, fun _ => 0⟩ : DevState), SessionOp.listen (⟨fun _ => 0, fun b => b == 1, fun _ => 0⟩ : DevState), SessionOp.listen (⟨fun _ => 0, fun b => b == 2, fun _ => 0⟩ : DevState), SessionOp.stop]).prefs_store
          = ((⟨some (⟨some (⟨0, "g", "n", true, 0, 7, 0, false, false, false, false⟩ : Device), [some (Signal.button 5)], false⟩ : PlayerController), none, (0 : Nat)⟩ : GlobalState Nat)).prefs_store :=
  ⟨by decide,
    (abort_cleanliness (⟨some (⟨some (⟨0, "g", "n", true, 0, 7, 0, false, false, false, false⟩ : Device), [some (Signal.button 5)], false⟩ : PlayerController), none, (0 : Nat)⟩ : GlobalState Nat)
      [SessionOp.start, SessionOp.listen (⟨fun _ => 0, fun b => b == 0, fun _ => 0⟩ : DevState), SessionOp.listen (⟨fun _ => 0, fun b => b == 1, fun _ => 0⟩ : DevState), SessionOp.listen (⟨fun _ => 0, fun b => b == 2, fun _ => 0⟩ : DevState), SessionOp.stop] (by decide)).1,
    (abort_cleanliness (⟨some (⟨some (⟨0, "g", "n", true, 0, 7, 0, false, false, false, false⟩ : Device), [some (Signal.button 5)], false⟩ : PlayerController), none, (0 : Nat)⟩ : GlobalState Nat)
      [SessionOp.start, SessionOp.listen (⟨fun _ => 0, fun b => b == 0, fun _ => 0⟩ : DevState), SessionOp.listen (⟨fun _ => 0, fun b => b == 1, fun _ => 0⟩ : DevState), SessionOp.listen (⟨fun _ => 0, fun b => b == 2, fun _ => 0⟩ : DevState), SessionOp.stop] (by decide)).2⟩

/-- C6 (the code-bug exhibit): with a player controller present but no
device bound and no configurer, seven of the eight session entry points are
harmless no-ops returning benign defaults — but `neutral_zones_known()`
dereferences the NULL device (`none` here), contradicting the module's own
documentation that out-of-order calls silently fail. -/
theorem neutral_zones_known_null_device :
    neutral_zones_known (⟨some (⟨none, [], true⟩ : PlayerController), none, (0 : Nat)⟩ : GlobalState Nat) = none
      ∧ start_configurer (⟨some (⟨none, [], true⟩ : PlayerController), none, (0 : Nat)⟩ : GlobalState Nat) = (⟨some (⟨none, [], true⟩ : PlayerController), none, (0 : Nat)⟩ : GlobalState Nat)
      ∧ clear_neutral_zones (⟨some (⟨none, [], true⟩ : PlayerController), none, (0 : Nat)⟩ : GlobalState Nat) = (⟨some (⟨none, [], true⟩ : PlayerController), none, (0 : Nat)⟩ : GlobalState Nat)
      ∧ examine_neutral_zones_tick (⟨some (⟨none, [], true⟩ : PlayerController), none, (0 : Nat)⟩ : GlobalState Nat) (⟨fun _ => 0, fun _ => false, fun _ => 0⟩ : DevState)
          = (⟨some (⟨none, [], true⟩ : PlayerController), none, (0 : Nat)⟩ : GlobalState Nat)
      ∧ neutral_zones_dangerous (⟨some (⟨none, [], true⟩ : PlayerController), none, (0 : Nat)⟩ : GlobalState Nat) = false
      ∧ default_neutral_zones (⟨some (⟨none, [], true⟩ : PlayerController), none, (0 : Nat)⟩ : GlobalState Nat) = (⟨some (⟨none, [], true⟩ : PlayerController), none, (0 : Nat)⟩ : GlobalState Nat)
      ∧ listen_for_signal (⟨some (⟨none, [], true⟩ : PlayerController), none, (0 : Nat)⟩ : GlobalState Nat) (⟨fun _ => 0, fun _ => false, fun _ => 0⟩ : DevState)
          = ((⟨some (⟨none, [], true⟩ : PlayerController), none, (0 : Nat)⟩ : GlobalState Nat), .still_listening)
      ∧ retreat (⟨some (⟨none, [], true⟩ : PlayerController), none, (0 : Nat)⟩ : GlobalState Nat) = ((⟨some (⟨none, [], true⟩ : PlayerController), none, (0 : Nat)⟩ : GlobalState Nat), false)
      ∧ apply_configuration (⟨some (⟨none, [], true⟩ : PlayerController), none, (0 : Nat)⟩ : GlobalState Nat) = (⟨some (⟨none, [], true⟩ : PlayerController), none, (0 : Nat)⟩ : GlobalState Nat)
      ∧ stop_configurer (⟨some (⟨none, [], true⟩ : PlayerController), none, (0 : Nat)⟩ : GlobalState Nat) = (⟨some (⟨none, [], true⟩ : PlayerController), none, (0 : Nat)⟩ : GlobalState Nat) :=
  ⟨rfl, rfl, rfl, rfl, rfl, rfl, rfl, rfl, rfl, rfl⟩

/-- C4 (the code-bug exhibit): `change_device(NULL)` on a controller with a
full 7-slot map nulls the device pointer but leaves the old signal map in
place — the slots are not cleared, contradicting the function's own comment
and the spec. -/
theorem change_device_null_keeps_map :
    (change_device (⟨"x", fun _ => 0, fun _ => 0, fun _ => 0, fun _ => 0⟩ : Prefs)
        (⟨some (⟨0, "g", "n", true, 0, 7, 0, false, false, false, false⟩ : Device), [some (Signal.button 0), some (Signal.button 1), some (Signal.button 2), some (Signal.button 3), some (Signal.button 4), some (Signal.button 5), some (Signal.button 6)], false⟩ : PlayerController) none).device = none
      ∧ (change_device (⟨"x", fun _ => 0, fun _ => 0, fun _ => 0, fun _ => 0⟩ : Prefs)
          (⟨some (⟨0, "g", "n", true, 0, 7, 0, false, false, false, false⟩ : Device), [some (Signal.button 0), some (Signal.button 1), some (Signal.button 2), some (Signal.button 3), some (Signal.button 4), some (Signal.button 5), some (Signal.button 6)], false⟩ : PlayerController) none).signal_map
          = ((⟨some (⟨0, "g", "n", true, 0, 7, 0, false, false, false, false⟩ : Device), [some (Signal.button 0), some (Signal.button 1), some (Signal.button 2), some (Signal.button 3), some (Signal.button 4), some (Signal.button 5), some (Signal.button 6)], false⟩ : PlayerController)).signal_map
      ∧ (change_device (⟨"x", fun _ => 0, fun _ => 0, fun _ => 0, fun _ => 0⟩ : Prefs)
          (⟨some (⟨0, "g", "n", true, 0, 7, 0, false, false, false, false⟩ : Device), [some (Signal.button 0), some (Signal.button 1), some (Signal.button 2), some (Signal.button 3), some (Signal.button 4), some (Signal.button 5), some (Signal.button 6)], false⟩ : PlayerController) none).signal_map.length = NUM_CONTROLS
      ∧ (change_device (⟨"x", fun _ => 0, fun _ => 0, fun _ => 0, fun _ => 0⟩ : Prefs)
          (⟨some (⟨0, "g", "n", true, 0, 7, 0, false, false, false, false⟩ : Device), [some (Signal.button 0), some (Signal.button 1), some (Signal.button 2), some (Signal.button 3), some (Signal.button 4), some (Signal.button 5), some (Signal.button 6)], false⟩ : PlayerController) none).signal_map ≠ []
      ∧ (change_device (⟨"x", fun _ => 0, fun _ => 0, fun _ => 0, fun _ => 0⟩ : Prefs)
          (⟨some (⟨0, "g", "n", true, 0, 7, 0, false, false, false, false⟩ : Device), [some (Signal.button 0), some (Signal.button 1), some (Signal.button 2), some (Signal.button 3), some (Signal.button 4), some (Signal.button 5), some (Signal.button 6)], false⟩ : PlayerController) none).signal_map ≠ List.replicate NUM_CONTROLS none :=
  ⟨rfl, rfl, rfl, by decide, by decide⟩

/-- C5 (counterexample): a reconciliation run over a device list where one
position fails to open is not skipped — `synch_devices` hits its
`ASSERT_FATAL` and aborts, even though the remaining position would open
fine. -/
theorem synch_devices_fatal_on_failed_open :
    synch_devices (⟨"x", fun _ => 0, fun _ => 0, fun _ => 0, fun _ => 0⟩ : Prefs)
        (⟨2, fun j => if j = 0 then none else some (⟨5, "h", "m", true, 0, 2, 0, false, false, false, false⟩ : Device)⟩ : Platform)
        (⟨[], ⟨none, [], true⟩⟩ : ManagerState)
      = .error ()
      ∧ initial_setup_joysticks (⟨2, fun j => if j = 0 then none else some (⟨5, "h", "m", true, 0, 2, 0, false, false, false, false⟩ : Device)⟩ : Platform)
          = [(⟨5, "h", "m", true, 0, 2, 0, false, false, false, false⟩ : Device)] :=
  ⟨rfl, rfl⟩

/-- Every position of the open-loop before a failing one is processed; a
failing position errors the whole loop. -/
theorem synch_open_loop_error (p : Platform) :
    ∀ (l : List Nat) (js : List Device) (ch : Bool),
      (∃ j ∈ l, p.sdl_open j = none) → synch_open_loop p l js ch = .error () := by
  intro l
  induction l with
  | nil =>
      intro js ch h
      obtain ⟨j, hj, -⟩ := h
      exact absurd hj (List.not_mem_nil j)
  | cons n rest ihl =>
      intro js ch h
      cases hop : p.sdl_open n with
      | none =>
          rw [synch_open_loop, hop]
      | some cand =>
          have hrest : ∃ j ∈ rest, p.sdl_open j = none := by
            obtain ⟨j, hj, hjn⟩ := h
            rcases List.mem_cons.mp hj with rfl | hmem
            · rw [hop] at hjn
              exact absurd hjn (by simp)
            · exact ⟨j, hmem, hjn⟩
          have hred : synch_open_loop p (n :: rest) js ch
              = if js.any (fun con => con.id = cand.id) then synch_open_loop p rest js ch
                else synch_open_loop p rest (js ++ [cand]) true := by
            rw [synch_open_loop, hop]
          rw [hred]
          split
          · exact ihl js ch hrest
          · exact ihl (js ++ [cand]) true hrest

/-- Every successfully-opening position contributes its device to the
initial-setup loop's list, whatever happens at the other positions. -/
theorem initial_setup_loop_mem (p : Platform) :
    ∀ (l : List Nat) (k : Nat) (c : Device),
      k ∈ l → p.sdl_open k = some c → c ∈ initial_setup_loop p l := by
  intro l
  induction l with
  | nil => intro k c hk; exact absurd hk (List.not_mem_nil k)
  | cons n rest ihl =>
      intro k c hk hopen
      rcases List.mem_cons.mp hk with rfl | hmem
      · rw [initial_setup_loop, hopen]
        exact List.mem_cons_self c _
      · cases hop : p.sdl_open n with
        | none =>
            rw [initial_setup_loop, hop]
            exact ihl k c hmem hopen
        | some j =>
            rw [initial_setup_loop, hop]
            exact List.mem_cons_of_mem j (ihl k c hmem hopen)

/-- C5 (amended): during `initial_setup` a position that fails to open is
skipped non-fatally — every other position that opens still contributes its
device to the tracked list — but during `synch_devices` reconciliation a
single failed open aborts the run via `ASSERT_FATAL` instead of being
skipped. -/
theorem enumeration_failed_open_behaviour :
    (∀ (p : Platform) (k : Nat) (c : Device),
        k < p.num_sticks → p.sdl_open k = some c → c ∈ initial_setup_joysticks p)
      ∧ (∀ (p : Platform) (prefs : Prefs) (m : ManagerState),
          (∃ j < p.num_sticks, p.sdl_open j = none) →
          synch_devices prefs p m = .error ()) := by
  constructor
  · intro p k c hk hopen
    exact initial_setup_loop_mem p (List.range p.num_sticks) k c (List.mem_range.mpr hk) hopen
  · intro p prefs m h
    obtain ⟨j, hj, hjn⟩ := h
    have hloop := synch_open_loop_error p (List.range p.num_sticks)
      (m.joysticks.filter fun d => d.attached)
      (m.joysticks.any fun d => !d.attached)
      ⟨j, List.mem_range.mpr hj, hjn⟩
    unfold synch_devices
    dsimp only
    rw [hloop]

/-- Witness for the amended C5 at the counterexample platform: position 0
fails, position 1 opens and is still tracked by initial setup; the same
list makes reconciliation abort. -/
theorem enumeration_failed_open_behaviour_witness :
    ((1 : Nat) < ((⟨2, fun j => if j = 0 then none else some (⟨5, "h", "m", true, 0, 2, 0, false, false, false, false⟩ : Device)⟩ : Platform)).num_sticks
        ∧ ((⟨2, fun j => if j = 0 then none else some (⟨5, "h", "m", true, 0, 2, 0, false, false, false, false⟩ : Device)⟩ : Platform)).sdl_open 1
            = some (⟨5, "h", "m", true, 0, 2, 0, false, false, false, false⟩ : Device)
        ∧ (⟨5, "h", "m", true, 0, 2, 0, false, false, false, false⟩ : Device)
            ∈ initial_setup_joysticks (⟨2, fun j => if j = 0 then none else some (⟨5, "h", "m", true, 0, 2, 0, false, false, false, false⟩ : Device)⟩ : Platform))
      ∧ ((∃ j < ((⟨2, fun j => if j = 0 then none else some (⟨5, "h", "m", true, 0, 2, 0, false, false, false, false⟩ : Device)⟩ : Platform)).num_sticks,
            ((⟨2, fun j => if j = 0 then none else some (⟨5, "h", "m", true, 0, 2, 0, false, false, false, false⟩ : Device)⟩ : Platform)).sdl_open j = none)
          ∧ synch_devices (⟨"x", fun _ => 0, fun _ => 0, fun _ => 0, fun _ => 0⟩ : Prefs)
              (⟨2, fun j => if j = 0 then none else some (⟨5, "h", "m", true, 0, 2, 0, false, false, false, false⟩ : Device)⟩ : Platform)
              (⟨[], ⟨none, [], true⟩⟩ : ManagerState)
            = .error ()) :=
  ⟨⟨by decide, rfl,
      enumeration_failed_open_behaviour.1
        (⟨2, fun j => if j = 0 then none else some (⟨5, "h", "m", true, 0, 2, 0, false, false, false, false⟩ : Device)⟩ : Platform) 1
        (⟨5, "h", "m", true, 0, 2, 0, false, false, false, false⟩ : Device) (by decide) rfl⟩,
    ⟨⟨0, by decide, rfl⟩,
      enumeration_failed_open_behaviour.2
        (⟨2, fun j => if j = 0 then none else some (⟨5, "h", "m", true, 0, 2, 0, false, false, false, false⟩ : Device)⟩ : Platform)
        (⟨"x", fun _ => 0, fun _ => 0, fun _ => 0, fun _ => 0⟩ : Prefs)
        (⟨[], ⟨none, [], true⟩⟩ : ManagerState)
        ⟨0, by decide, rfl⟩⟩⟩

end joystick
